import Mathlib

/-!
Shallow embedding of the payment-and-entitlement reconciliation core of the
optiverify backend (Stripe webhook handler, manual sync endpoints, credit
ledger, report unlock gate, and the email access-token service), together
with theorems settling the specification claims.

Conventions of the embedding:
* MongoDB documents become Lean structures; collections become lists inside
  a `World` record; `findOne` is `List.find?` in insertion order and
  `.sort(\x7bcreatedAt: -1\x7d).findOne` is the last matching element.
* Monetary amounts are carried in integer cents (`amountCents`); the source
  stores dollars, so the source's `Math.floor(amount / 10)` becomes
  `amountCents.fdiv 1000`.
* JavaScript string truthiness (`if (x)`) on optional strings is modelled by
  `optTruthy`, which collapses `some ""` to `none`.
* Mongoose casting of an id string to an ObjectId succeeds exactly for
  24-character hex strings and 12-character strings; a failed cast inside a
  query raises `CastError`, modelled by the `castErr` outcome.
* External collaborators (the AI scorer, the Stripe retrieval of a
  subscription's latest payment intent, HMAC-SHA256 and base64url from the
  node runtime) are parameters of the embedded operations.
* Timestamps relevant to the claims are calendar dates (year, month, day);
  `Date#setMonth`/`Date#setFullYear` day-overflow normalization is modelled.
-/

namespace Optiverify

/-- JS `String#toLowerCase()` (ASCII range, as the emails here are ASCII). -/
def jsToLower (s : String) : String := String.mk (s.data.map Char.toLower)

/-- JS `String#trim()`. -/
def jsTrim (s : String) : String :=
  String.mk
    (((s.data.dropWhile Char.isWhitespace).reverse.dropWhile
      Char.isWhitespace).reverse)

/-- JS `String#toLowerCase().trim()` normalization used for emails. -/
def normEmail (s : String) : String := jsTrim (jsToLower s)

/-- JS truthiness for an optional string: `undefined`/`null` and `""` are falsy. -/
def optTruthy : Option String → Option String
  | none => none
  | some s => if s = "" then none else some s

/-- Whether a character is a hexadecimal digit. -/
def isHexDigit (c : Char) : Bool :=
  c.isDigit || ('a' ≤ c && c ≤ 'f') || ('A' ≤ c && c ≤ 'F')

/-- Mongoose accepts a string as an ObjectId iff it is 24 hex characters or
any 12 characters.  The literal `"general"` (length 7) is never a valid id. -/
def validObjectId (s : String) : Bool :=
  (s.data.length = 24 && s.data.all isHexDigit) || s.data.length = 12

/-- Calendar date, modelling the day-granularity part of a JS `Date`
(month is 0-based as in JS). -/
structure JSDate where
  year : Int
  month : Nat
  day : Nat
  deriving Repr, DecidableEq

/-- Leap-year test of the Gregorian calendar. -/
def isLeapYear (y : Int) : Bool :=
  (y % 4 = 0 && y % 100 ≠ 0) || y % 400 = 0

/-- Days in a (0-based) month. -/
def daysInMonth (y : Int) (m : Nat) : Nat :=
  if m = 1 then (if isLeapYear y then 29 else 28)
  else if m = 3 || m = 5 || m = 8 || m = 10 then 30
  else 31

/-- JS `Date` normalization after `setMonth`/`setFullYear`: a day past the end
of the target month rolls into the following month (one step suffices for
days arising from real dates, which never exceed 31). -/
def normalizeJSDate (y : Int) (m : Nat) (d : Nat) : JSDate :=
  if d ≤ daysInMonth y m then ⟨y, m, d⟩
  else if m = 11 then ⟨y + 1, 0, d - daysInMonth y m⟩
  else ⟨y, m + 1, d - daysInMonth y m⟩

/-- `expiryDate.setMonth(expiryDate.getMonth() + 1)` on a copy of `now`. -/
def addOneMonthJS (d : JSDate) : JSDate :=
  if d.month = 11 then normalizeJSDate (d.year + 1) 0 d.day
  else normalizeJSDate d.year (d.month + 1) d.day

/-- `expiryDate.setFullYear(expiryDate.getFullYear() + 1)` on a copy of `now`. -/
def addOneYearJS (d : JSDate) : JSDate :=
  normalizeJSDate (d.year + 1) d.month d.day

/-- Strict `<` on dates (`new Date(a) > new Date(b)` in the source). -/
def jsDateLt (a b : JSDate) : Bool :=
  a.year < b.year ||
  (a.year = b.year && (a.month < b.month ||
    (a.month = b.month && a.day < b.day)))

/-! ## Data model (Mongoose schemas) -/

/-- `models/common/User.js` — the Account state of the spec.  Users are keyed
by their unique lowercase email; `userId` references elsewhere store the
email. -/
structure UserR where
  email : String
  isVerified : Bool
  subscriptionStatus : String
  subscriptionPlan : Option String
  subscriptionExpiresAt : Option JSDate
  stripeCustomerId : Option String
  stripeSubscriptionId : Option String
  matchCredits : Int
  deriving Repr, DecidableEq

/-- A fresh user as created by `new User({email, ...})` with schema defaults
(`isVerified` field given explicitly at each creation site). -/
def newUser (email : String) (isVerified : Bool) : UserR :=
  { email := email, isVerified := isVerified, subscriptionStatus := "none",
    subscriptionPlan := none, subscriptionExpiresAt := none,
    stripeCustomerId := none, stripeSubscriptionId := none, matchCredits := 0 }

/-- `models/customer/Payment.js` — one durable record per checkout attempt. -/
structure PaymentR where
  id : Nat
  requestId : Option String
  matchReportId : Option Nat
  email : String
  amountCents : Int
  planType : String
  status : String
  stripePaymentIntentId : Option String
  stripeSessionId : Option String
  stripeCustomerId : Option String
  stripeSubscriptionId : Option String
  paid : Bool
  deriving Repr, DecidableEq

/-- `models/customer/MatchReport.js` — report content fields (preview,
supplier list) are omitted: no claim mentions them; only lifecycle fields
are kept. -/
structure MatchReportR where
  id : Nat
  requestId : String
  email : String
  status : String
  paymentId : Option Nat
  unlocked : Bool
  deriving Repr, DecidableEq

/-- `models/customer/BuyerRequest.js` — only the fields the reconciliation
engine reads or writes. -/
structure BuyerRequestR where
  id : String
  email : String
  status : String
  deriving Repr, DecidableEq

/-- `models/customer/ManagedService.js` — fields written by the webhook. -/
structure ManagedServiceR where
  id : String
  email : String
  userId : Option String
  status : String
  stage : String
  serviceFeeStatus : String
  serviceFeePaymentId : Option String
  savingsFeeStatus : String
  savingsFeePaymentId : Option String
  serviceFeeAmountCents : Int
  savingsFeeAmountCents : Int
  deriving Repr, DecidableEq

/-- `models/customer/CreditTransaction.js` — the append-only credit ledger
(`userId` stores the owner's email in this embedding; free-text `notes`
omitted). -/
structure CreditTxn where
  userId : String
  requestId : Option String
  matchReportId : Option Nat
  email : String
  creditsUsed : Int
  creditsBefore : Int
  creditsAfter : Int
  transactionType : String
  reason : String
  deriving Repr, DecidableEq

/-- `models/admin/Plan.js` — the plan catalog consulted by the entitlement
helpers. -/
structure PlanR where
  planType : String
  credits : Int
  maxRolloverCredits : Int
  isActive : Bool
  deriving Repr, DecidableEq

/-- `models/admin/Supplier.js` — only activity matters for the claims (all
scoring detail lives in the external scorer parameter). -/
structure SupplierR where
  id : Nat
  isActive : Bool
  deriving Repr, DecidableEq

/-- The document store: one list per collection, plus a fresh-id counter for
`_id` generation. -/
structure World where
  users : List UserR
  payments : List PaymentR
  reports : List MatchReportR
  buyerRequests : List BuyerRequestR
  managedServices : List ManagedServiceR
  creditTxns : List CreditTxn
  suppliers : List SupplierR
  plans : List PlanR
  nextId : Nat
  deriving Repr, DecidableEq

/-- Well-formedness: every stored document id is below the fresh-id counter. -/
def WF (w : World) : Prop :=
  (∀ p ∈ w.payments, p.id < w.nextId) ∧ (w.payments.map PaymentR.id).Nodup ∧
  (∀ r ∈ w.reports, r.id < w.nextId) ∧ (w.reports.map MatchReportR.id).Nodup

instance (w : World) : Decidable (WF w) := by
  unfold WF; infer_instance

/-- The account-visible view the idempotency claim compares: per user, the
credit balance and the subscription expiry. -/
def usersView (w : World) : List (String × Int × Option JSDate) :=
  w.users.map fun u => (u.email, u.matchCredits, u.subscriptionExpiresAt)

/-! ## Plan catalog helpers (`paymentController`) -/

/-- `isSubscriptionPlan` from the payment controller. -/
def isSubscriptionPlan (planType : String) : Bool :=
  planType = "starter_monthly" || planType = "starter_annual" ||
  planType = "professional_monthly" || planType = "professional_annual"

/-- `"starter_monthly" -> "starter"`: strip the billing-interval suffix. -/
def dbPlanType (planType : String) : String :=
  if planType.data.contains '_' then
    ((planType.splitOn "_").headD planType)
  else planType

/-- `getCreditsForPlan`: look up the active plan by family, falling back to
the hardcoded legacy table. -/
def getCreditsForPlan (plans : List PlanR) (planType : String) : Int :=
  match plans.find? (fun p => p.planType = dbPlanType planType && p.isActive) with
  | some p => p.credits
  | none =>
    if planType = "starter_monthly" || planType = "starter_annual" then 5
    else if planType = "professional_monthly" || planType = "professional_annual" then 15
    else 0

/-- `getMaxRolloverCredits`: same lookup, falling back to 3 for professional
plans and 0 otherwise. -/
def getMaxRolloverCredits (plans : List PlanR) (planType : String) : Int :=
  match plans.find? (fun p => p.planType = dbPlanType planType && p.isActive) with
  | some p => p.maxRolloverCredits
  | none =>
    if planType = "professional_monthly" || planType = "professional_annual" then 3
    else 0

/-- The credit-allocation rule of the subscription branch (identical at its
five occurrences in the source): rollover up to the cap when the plan allows
it and credits remain, otherwise reset to the plan's grant. -/
def allocateCredits (plans : List PlanR) (planType : String) (current : Int) : Int :=
  let creditsForPlan := getCreditsForPlan plans planType
  let maxRollover := getMaxRolloverCredits plans planType
  if 0 < maxRollover && 0 < current then
    creditsForPlan + min current maxRollover
  else creditsForPlan

/-- The expiry rule of the subscription branch: monthly plans get
`now + 1 month`, annual plans `now + 1 year`, other plan types leave the
expiry untouched (`none` = no update). -/
def computeExpiryUpdate (planType : String) (now : JSDate) : Option JSDate :=
  if planType = "starter_monthly" || planType = "professional_monthly" then
    some (addOneMonthJS now)
  else if planType = "starter_annual" || planType = "professional_annual" then
    some (addOneYearJS now)
  else none

/-- The user mutation of the webhook's subscription branch
(lines setting status/plan/Stripe ids, allocating credits and the expiry),
returning the updated user together with the ledger entry the branch
appends. -/
def subscriptionUserUpdate (plans : List PlanR) (now : JSDate)
    (customer subscription : Option String) (planType : String)
    (u : UserR) : UserR × CreditTxn :=
  let creditsBefore := u.matchCredits
  let newCredits := allocateCredits plans planType creditsBefore
  let u' : UserR :=
    { u with
      subscriptionStatus := "active"
      subscriptionPlan := some planType
      stripeCustomerId := customer
      stripeSubscriptionId := subscription
      matchCredits := newCredits
      subscriptionExpiresAt :=
        match computeExpiryUpdate planType now with
        | some e => some e
        | none => u.subscriptionExpiresAt }
  let txn : CreditTxn :=
    { userId := u.email, requestId := none, matchReportId := none,
      email := u.email, creditsUsed := newCredits - creditsBefore,
      creditsBefore := creditsBefore, creditsAfter := newCredits,
      transactionType := "added", reason := "subscription_allocation" }
  (u', txn)

/-! ## Stripe payload shapes and handler environment -/

/-- `session.metadata` as set by `createCheckoutSession` (all values are
strings in Stripe; `quantity` is carried as the integer `parseInt` yields,
with `none` for an absent or non-numeric value). -/
structure Metadata where
  mtype : Option String
  paymentType : Option String
  requestId : Option String
  planType : Option String
  quantity : Option Int
  email : Option String
  verificationToken : Option String
  deriving Repr, DecidableEq

/-- A Stripe checkout session object as read by the handlers. -/
structure Session where
  id : String
  payment_intent : Option String
  customer : Option String
  subscription : Option String
  customer_email : Option String
  client_reference_id : Option String
  amount_total : Int
  payment_status : String
  metadata : Metadata
  deriving Repr, DecidableEq

/-- A Stripe invoice object as read by `invoice.payment_succeeded`. -/
structure Invoice where
  id : String
  subscription : Option String
  customer_email : Option String
  deriving Repr, DecidableEq

/-- Handler environment: the wall clock and the external collaborators
(the AI match scorer, restricted to what the engine observes, and the
Stripe lookup of a subscription's latest invoice payment intent). -/
structure Env where
  now : JSDate
  scorer : String → Nat → Int
  subPaymentIntent : String → Option String

/-- An HTTP response, reduced to the fields the claims mention. -/
structure Resp where
  status : Nat
  success : Bool
  message : String
  payment : Option PaymentR
  deriving Repr, DecidableEq

/-- `res.json({received:true})`. -/
def respReceived : Resp := ⟨200, true, "received", none⟩

/-- `res.json({received:true, ...info})` degraded-success variants. -/
def respReceivedMsg (m : String) : Resp := ⟨200, true, m, none⟩

/-- An error response with the given HTTP status. -/
def respErr (status : Nat) (m : String) : Resp := ⟨status, false, m, none⟩

/-- A success response carrying a payment record. -/
def respData (m : String) (p : PaymentR) : Resp := ⟨200, true, m, some p⟩

/-! ## World operations -/

/-- `User.findOne({email})`. -/
def findUserByEmail (w : World) (email : String) : Option UserR :=
  w.users.find? fun u => u.email = email

/-- Persist an updated user document (update-by-key semantics of
`document.save()` for a previously loaded document). -/
def saveUser (w : World) (u : UserR) : World :=
  { w with users := w.users.map fun v => if v.email = u.email then u else v }

/-- `new User(...)` followed by `save()`: insert. -/
def insertUser (w : World) (u : UserR) : World :=
  { w with users := w.users ++ [u] }

/-- Insert a new payment document, drawing its `_id` from the counter. -/
def insertPayment (w : World) (mk : Nat → PaymentR) : World × PaymentR :=
  let p := mk w.nextId
  ({ w with payments := w.payments ++ [p], nextId := w.nextId + 1 }, p)

/-- `payment.save()` for a previously inserted document. -/
def savePayment (w : World) (p : PaymentR) : World :=
  { w with payments := w.payments.map fun q => if q.id = p.id then p else q }

/-- Insert a new match report, drawing its `_id` from the counter. -/
def insertReport (w : World) (mk : Nat → MatchReportR) : World × MatchReportR :=
  let r := mk w.nextId
  ({ w with reports := w.reports ++ [r], nextId := w.nextId + 1 }, r)

/-- `matchReport.save()` for a previously loaded document. -/
def saveReport (w : World) (r : MatchReportR) : World :=
  { w with reports := w.reports.map fun q => if q.id = r.id then r else q }

/-- `MatchReport.findOne({requestId})` (the caller has already cast the id). -/
def findReportByRequestId (w : World) (rid : String) : Option MatchReportR :=
  w.reports.find? fun r => r.requestId = rid

/-- `MatchReport.findById`. -/
def findReportById (w : World) (i : Nat) : Option MatchReportR :=
  w.reports.find? fun r => r.id = i

/-- `BuyerRequest.findById` over a stored (already cast) id. -/
def findBuyerRequestById (w : World) (rid : String) : Option BuyerRequestR :=
  w.buyerRequests.find? fun r => r.id = rid

/-- `buyerRequest.save()`. -/
def saveBuyerRequest (w : World) (b : BuyerRequestR) : World :=
  { w with buyerRequests := w.buyerRequests.map fun q => if q.id = b.id then b else q }

/-- `ManagedService.findById`. -/
def findManagedServiceById (w : World) (i : String) : Option ManagedServiceR :=
  w.managedServices.find? fun m => m.id = i

/-- `managedService.save()`. -/
def saveManagedService (w : World) (m : ManagedServiceR) : World :=
  { w with managedServices := w.managedServices.map fun q => if q.id = m.id then m else q }

/-- `CreditTransaction.create(...)`: append to the ledger. -/
def addTxn (w : World) (t : CreditTxn) : World :=
  { w with creditTxns := w.creditTxns ++ [t] }

/-! ## Webhook: payment lookup -/

/-- One `$or` condition of the webhook's requestId-based payment search. -/
inductive PayCond
  | generalTopUp
  | byRequestId (rid : String)
  deriving Repr, DecidableEq

/-- Whether a payment matches a search condition. -/
def condMatches : PayCond → PaymentR → Bool
  | .generalTopUp, p => p.requestId = none && p.planType = "extra_credit"
  | .byRequestId r, p => p.requestId = some r

/-- The search conditions built from `session.metadata.requestId` and
`session.client_reference_id` (each only when truthy, with the `"general"`
marker mapped to the null-requestId/extra_credit condition). -/
def sessionConds (s : Session) : List PayCond :=
  (match optTruthy s.metadata.requestId with
   | some r => [if r = "general" then .generalTopUp else .byRequestId r]
   | none => []) ++
  (match optTruthy s.client_reference_id with
   | some r => [if r = "general" then .generalTopUp else .byRequestId r]
   | none => [])

/-- Running a `findOne({$or})` query casts every requestId value; an invalid
id raises `CastError`. -/
def condsValid (cs : List PayCond) : Bool :=
  cs.all fun c => match c with
    | .byRequestId r => validObjectId r
    | .generalTopUp => true

/-- Outcome of the payment lookup. -/
inductive LookupResult
  | found (p : PaymentR)
  | notFound
  | castErr
  deriving Repr, DecidableEq

/-- The webhook's located-payment search: first by `stripeSessionId` (when
the session id is truthy), then by the requestId conditions. -/
def findPaymentForSession (s : Session) (w : World) : LookupResult :=
  match (if s.id ≠ "" then w.payments.find? (fun p => p.stripeSessionId = some s.id)
         else none) with
  | some p => .found p
  | none =>
    if (sessionConds s).isEmpty then .notFound
    else if condsValid (sessionConds s) = false then .castErr
    else
      match w.payments.find? (fun p =>
          (sessionConds s).any (fun c => condMatches c p)) with
      | some p => .found p
      | none => .notFound

/-! ## Webhook: managed-service branches -/

/-- The created-or-verified user list of the managed-service branch
(`User.findOne` then either `new User({email, isVerified: true})` or
`user.isVerified = true; user.save()`). -/
def ensureVerifiedUsers (l : List UserR) (ce : String) : List UserR :=
  match l.find? (fun v => v.email = ce) with
  | none => l ++ [newUser ce true]
  | some u => l.map fun v => if v.email = u.email then { u with isVerified := true } else v

/-- World-level form of the managed-service user step. -/
def ensureVerifiedUser (w : World) (ce : String) : World :=
  { w with users := ensureVerifiedUsers w.users ce }

/-- The `managed_service` sub-handler (service fee paid). -/
def handleManagedService (s : Session) (w : World) : Resp × World :=
  match s.metadata.requestId with
  | none => (respReceivedMsg "Managed service not found", w)
  | some rid =>
    if validObjectId rid = false then (respErr 500 "webhook error", w)
    else
      match findManagedServiceById w rid with
      | none => (respReceivedMsg "Managed service not found", w)
      | some ms =>
        let ce := normEmail ((optTruthy s.customer_email).getD ms.email)
        let w := ensureVerifiedUser w ce
        let ms' := { ms with
          userId := some ce, serviceFeeStatus := "paid",
          serviceFeePaymentId := s.payment_intent,
          status := "in_progress", stage := "review" }
        let w := saveManagedService w ms'
        let (w, _) := insertPayment w (fun i =>
          { id := i, requestId := some ms.id, matchReportId := none, email := ce,
            amountCents := ms.serviceFeeAmountCents, planType := "managed_service",
            status := "succeeded", stripePaymentIntentId := s.payment_intent,
            stripeSessionId := none, stripeCustomerId := s.customer,
            stripeSubscriptionId := none, paid := true })
        (respReceived, w)

/-- The `managed_service_savings_fee` sub-handler. -/
def handleSavingsFee (s : Session) (w : World) : Resp × World :=
  match s.metadata.requestId with
  | none => (respReceivedMsg "Managed service not found", w)
  | some rid =>
    if validObjectId rid = false then (respErr 500 "webhook error", w)
    else
      match findManagedServiceById w rid with
      | none => (respReceivedMsg "Managed service not found", w)
      | some ms =>
        let ce := normEmail ((optTruthy s.customer_email).getD ms.email)
        let ms' := { ms with
          savingsFeeStatus := "paid", savingsFeePaymentId := s.payment_intent }
        let w := saveManagedService w ms'
        let (w, _) := insertPayment w (fun i =>
          { id := i, requestId := some ms.id, matchReportId := none, email := ce,
            amountCents := ms.savingsFeeAmountCents,
            planType := "managed_service_savings_fee", status := "succeeded",
            stripePaymentIntentId := s.payment_intent, stripeSessionId := none,
            stripeCustomerId := s.customer, stripeSubscriptionId := none,
            paid := true })
        (respReceived, w)

/-! ## Webhook: top-up and standard sub-handlers -/

/-- `quantity` from event metadata when truthy and nonzero, otherwise
`Math.floor(amount / 10)` ($10 per credit; `amount` is `amountCents / 100`
dollars, so the floor is `amountCents.fdiv 1000`). -/
def creditsToAddOf (quantity : Option Int) (amountCents : Int) : Int :=
  match quantity with
  | some q => if q = 0 then amountCents.fdiv 1000 else q
  | none => amountCents.fdiv 1000

/-- `!user.subscriptionExpiresAt || new Date(user.subscriptionExpiresAt) > new Date()`. -/
def hasActivePlanB (now : JSDate) (u : UserR) : Bool :=
  u.subscriptionStatus = "active" &&
  (match u.subscriptionExpiresAt with
   | none => true
   | some e => jsDateLt now e)

/-- Whether the inline match generation finds any qualified supplier
(`allSuppliers.length > 0` and some active supplier scores above 0). -/
def hasQualifiedSupplier (env : Env) (rid : String) (w : World) : Bool :=
  let actives := w.suppliers.filter (·.isActive)
  !actives.isEmpty && actives.any fun sp => 0 < env.scorer rid sp.id

/-- The webhook's `extra_credit` sub-handler: add the purchased credits with
a `top_up` ledger entry; when tied to a concrete request, deduct one credit
with an `unlock_request` entry, unlock the report, and — for a verified user
with an active plan and remaining credits — run match generation inline,
deducting one more credit with a `match_generation` entry and completing the
report. -/
def webhookTopUp (env : Env) (s : Session) (p : PaymentR) (w : World) :
    Resp × World :=
  let userEmail := normEmail p.email
  let found := findUserByEmail w userEmail
  let user0 := found.getD (newUser userEmail false)
  let creditsToAdd := creditsToAddOf s.metadata.quantity p.amountCents
  let creditsBefore := user0.matchCredits
  let user1 := { user0 with matchCredits := creditsBefore + creditsToAdd }
  let w := match found with
    | some _ => saveUser w user1
    | none => insertUser w user1
  let w := addTxn w
    { userId := user1.email, requestId := p.requestId,
      matchReportId := p.matchReportId, email := user1.email,
      creditsUsed := creditsToAdd, creditsBefore := creditsBefore,
      creditsAfter := user1.matchCredits, transactionType := "added",
      reason := "top_up" }
  match p.requestId with
  | none => (respReceived, w)
  | some rid =>
    if rid = "general" then (respReceived, w)
    else
      match findBuyerRequestById w rid with
      | none => (respReceived, w)
      | some br =>
        let (w, report) :=
          match findReportByRequestId w rid with
          | some r => (w, r)
          | none => insertReport w (fun i =>
              { id := i, requestId := rid, email := br.email,
                status := "pending", paymentId := none, unlocked := false })
        let (w, user2) :=
          if 0 < user1.matchCredits then
            let before2 := user1.matchCredits
            let u := { user1 with matchCredits := before2 - 1 }
            let w := saveUser w u
            let w := addTxn w
              { userId := u.email, requestId := some rid,
                matchReportId := some report.id, email := u.email,
                creditsUsed := 1, creditsBefore := before2,
                creditsAfter := u.matchCredits, transactionType := "deducted",
                reason := "unlock_request" }
            (w, u)
          else (w, user1)
        let report := { report with
          status := "unlocked", paymentId := some p.id, unlocked := true }
        let w := saveReport w report
        if user2.isVerified && hasActivePlanB env.now user2 &&
            0 < user2.matchCredits then
          if hasQualifiedSupplier env rid w then
            let before3 := user2.matchCredits
            let u := { user2 with matchCredits := before3 - 1 }
            let w := saveUser w u
            let w := addTxn w
              { userId := u.email, requestId := some rid,
                matchReportId := some report.id, email := u.email,
                creditsUsed := 1, creditsBefore := before3,
                creditsAfter := u.matchCredits, transactionType := "deducted",
                reason := "match_generation" }
            let w := saveReport w { report with status := "completed" }
            let w := saveBuyerRequest w { br with status := "processing" }
            (respReceived, w)
          else (respReceived, w)
        else (respReceived, w)

/-- Enrichment of a located/created payment from the session (Stripe ids,
with the subscription's latest-invoice payment intent fetched when missing)
followed by the transition to `succeeded`. -/
def enrichAndSucceed (env : Env) (s : Session) (p : PaymentR) : PaymentR :=
  let intent1 :=
    match optTruthy s.payment_intent with
    | some pi => some pi
    | none => p.stripePaymentIntentId
  { p with
    stripePaymentIntentId :=
      match optTruthy s.subscription with
      | some sub =>
        match intent1 with
        | none => env.subPaymentIntent sub
        | some x => some x
      | none => intent1
    stripeCustomerId :=
      match optTruthy s.customer with
      | some c => some c
      | none => p.stripeCustomerId
    stripeSubscriptionId :=
      match optTruthy s.subscription with
      | some sub => some sub
      | none => p.stripeSubscriptionId
    status := "succeeded", paid := true }

/-- The non-top-up tail of the webhook: unlock the associated match report
and, for subscription plans, apply the entitlement update to the (found or
newly created) account with its `subscription_allocation` ledger entry. -/
def handleStandardTail (env : Env) (s : Session) (p : PaymentR) (w : World) :
    Resp × World :=
  let w := match p.matchReportId with
    | none => w
    | some mid =>
      match findReportById w mid with
      | none => w
      | some mr => saveReport w { mr with
          status := "unlocked", paymentId := some p.id, unlocked := true }
  let w :=
    if isSubscriptionPlan p.planType then
      let userEmail := normEmail p.email
      match findUserByEmail w userEmail with
      | none =>
        let (u', txn) := subscriptionUserUpdate w.plans env.now s.customer
          s.subscription p.planType (newUser userEmail false)
        insertUser (addTxn w txn) u'
      | some u =>
        let (u', txn) := subscriptionUserUpdate w.plans env.now s.customer
          s.subscription p.planType u
        saveUser (addTxn w txn) u'
    else w
  (respReceived, w)

/-- Processing of a payment record the webhook just created from session
data: save all enrichments and the `succeeded` status, then dispatch to the
top-up or standard sub-handler. -/
def processCreated (env : Env) (s : Session) (p : PaymentR) (w : World) :
    Resp × World :=
  let p := enrichAndSucceed env s p
  let w := savePayment w p
  if p.planType = "extra_credit" then webhookTopUp env s p w
  else handleStandardTail env s p w

/-- The owner email of a lazily created top-up record:
`(session.customer_email || session.metadata.email || "").toLowerCase().trim()`. -/
def topUpEmailOf (s : Session) : String :=
  normEmail ((optTruthy s.customer_email).getD
    ((optTruthy s.metadata.email).getD ""))

/-- The pending top-up payment record built from session data (null
requestId for a `"general"` balance top-up). -/
def topUpPaymentOf (s : Session) (rid : String) (mrid : Option Nat)
    (i : Nat) : PaymentR :=
  { id := i, requestId := if rid = "general" then none else some rid,
    matchReportId := mrid, email := topUpEmailOf s,
    amountCents := s.amount_total, planType := "extra_credit",
    status := "pending", stripePaymentIntentId := none,
    stripeSessionId := some s.id, stripeCustomerId := none,
    stripeSubscriptionId := none, paid := false }

/-- Lazy reconstruction of a missing payment record from the session payload
(the `!payment && session.metadata?.requestId` branch). -/
def createFromSession (env : Env) (s : Session) (rid : String) (w : World) :
    Resp × World :=
  if s.metadata.planType = some "extra_credit" then
    if ¬ rid = "general" ∧ validObjectId rid = false then (respReceived, w)
    else
      let mrid := if rid = "general" then none
        else (findReportByRequestId w rid).map (·.id)
      let (w, p) := insertPayment w (topUpPaymentOf s rid mrid)
      processCreated env s p w
  else
    if validObjectId rid = false then (respReceived, w)
    else
      match findReportByRequestId w rid with
      | none => (respReceived, w)
      | some mr =>
        let pIntent := match optTruthy s.payment_intent with
          | some pi => some pi
          | none =>
            match optTruthy s.subscription with
            | some sub => env.subPaymentIntent sub
            | none => none
        let (w, p) := insertPayment w (fun i =>
          { id := i, requestId := some rid, matchReportId := some mr.id,
            email := normEmail ((optTruthy s.customer_email).getD
              ((optTruthy s.metadata.email).getD mr.email)),
            amountCents := s.amount_total,
            planType := (optTruthy s.metadata.planType).getD "one-time",
            status := "succeeded", stripePaymentIntentId := pIntent,
            stripeSessionId := none, stripeCustomerId := s.customer,
            stripeSubscriptionId := s.subscription, paid := true })
        processCreated env s p w

/-- The `checkout.session.completed` branch of `handleWebhook`: dispatch to
the managed-service sub-handlers, otherwise locate the payment record; a
located record is left untouched (the processing block is nested inside the
not-found branch), and a missing record is reconstructed and processed when
the session metadata names a requestId. -/
def handleCheckoutCompleted (env : Env) (s : Session) (w : World) :
    Resp × World :=
  if s.metadata.mtype = some "managed_service" then handleManagedService s w
  else if s.metadata.mtype = some "managed_service_savings_fee" ||
      s.metadata.paymentType = some "savings_fee" then handleSavingsFee s w
  else
    match findPaymentForSession s w with
    | .castErr => (respErr 500 "webhook error", w)
    | .found _ => (respReceived, w)
    | .notFound =>
      match optTruthy s.metadata.requestId with
      | none => (respReceived, w)
      | some rid => createFromSession env s rid w

/-- The `invoice.payment_succeeded` branch: find the user by stored
subscription id (falling back to the invoice's customer email) and reset the
credit balance to the constant 25 with status `active` — no ledger entry, no
expiry change. -/
def handleInvoicePaymentSucceeded (inv : Invoice) (w : World) : Resp × World :=
  match optTruthy inv.subscription with
  | none => (respReceived, w)
  | some sub =>
    let user :=
      match w.users.find? (fun u => u.stripeSubscriptionId = some sub) with
      | some u => some u
      | none =>
        (optTruthy inv.customer_email).bind fun e =>
          findUserByEmail w (normEmail e)
    match user with
    | none => (respReceived, w)
    | some u =>
      (respReceived, saveUser w { u with
        matchCredits := 25, subscriptionStatus := "active" })

/-- A webhook event envelope (after signature verification). -/
inductive EventObject
  | sess (s : Session)
  | inv (i : Invoice)
  | other
  deriving Repr

/-- The event dispatch of `handleWebhook` (signature-verified events). -/
structure Event where
  etype : String
  object : EventObject

/-- `handleWebhook` event dispatch: `checkout.session.completed` and
`invoice.payment_succeeded` do work; `payment_intent.succeeded` and other
event types only acknowledge. -/
def handleWebhookEvent (env : Env) (ev : Event) (w : World) : Resp × World :=
  if ev.etype = "checkout.session.completed" then
    match ev.object with
    | .sess s => handleCheckoutCompleted env s w
    | _ => (respReceived, w)
  else if ev.etype = "invoice.payment_succeeded" then
    match ev.object with
    | .inv i => handleInvoicePaymentSucceeded i w
    | _ => (respReceived, w)
  else (respReceived, w)

/-! ## Dashboard controller: credit-based unlock -/

/-- `dashboardController.unlockRequest`: consume one match credit to unlock
a request's report, rejecting with 400 when the balance cannot cover the
deduction. -/
def unlockRequest (w : World) (authEmail : String) (id : String) :
    Resp × World :=
  match findUserByEmail w authEmail with
  | none => (respErr 401 "Authentication required", w)
  | some user =>
    if !validObjectId id then (respErr 500 "Internal server error", w)
    else
      match w.buyerRequests.find? (fun r => r.id = id && r.email = user.email) with
      | none => (respErr 404 "Request not found", w)
      | some _ =>
        match findReportByRequestId w id with
        | none => (respErr 404 "Match report not found", w)
        | some mr =>
          if mr.status = "unlocked" then
            (⟨200, true, "Request already unlocked", none⟩, w)
          else if user.matchCredits < 1 then
            (respErr 400 "Insufficient match credits", w)
          else
            let creditsBefore := user.matchCredits
            let u := { user with matchCredits := creditsBefore - 1 }
            let w := saveUser w u
            let w := addTxn w
              { userId := u.email, requestId := some id,
                matchReportId := some mr.id, email := u.email,
                creditsUsed := 1, creditsBefore := creditsBefore,
                creditsAfter := u.matchCredits, transactionType := "deducted",
                reason := "unlock_request" }
            let w := saveReport w { mr with status := "unlocked", unlocked := true }
            (⟨200, true, "Request unlocked successfully", none⟩, w)

/-- The credit-deduction step of `requestController.processMatching`: deduct
one credit with a `match_generation` ledger entry, but only when credits
remain — a zero balance performs no deduction and writes no entry. -/
def processMatchingDeduct (w : World) (u : UserR) (rid : String)
    (mrid : Option Nat) : World :=
  if 0 < u.matchCredits then
    let creditsBefore := u.matchCredits
    let u' := { u with matchCredits := creditsBefore - 1 }
    let w := saveUser w u'
    addTxn w
      { userId := u'.email, requestId := some rid, matchReportId := mrid,
        email := u'.email, creditsUsed := 1, creditsBefore := creditsBefore,
        creditsAfter := u'.matchCredits, transactionType := "deducted",
        reason := "match_generation" }
  else w

/-! ## Manual sync endpoint (`syncPaymentStatus`) -/

/-- The Stripe API as seen by the sync endpoints: `none` results model a
throwing retrieval (caught by the surrounding try). -/
structure ProviderEnv where
  configured : Bool
  intentStatus : String → Option String
  sessionById : String → Option Session
  sessions : List Session

/-- The fall-through response when nothing new could be synced. -/
def respNotCompleted (p : PaymentR) : Resp :=
  ⟨200, false, "Payment not found or not completed in Stripe", some p⟩

/-- The sync variant of the `extra_credit` processing (duplicated in the
source inside `syncPaymentStatus`): identical to the webhook flow except
that a missing `matchReportId` is patched onto the payment record after the
unlock.  Returns the world together with the (possibly patched) in-memory
payment document. -/
def syncTopUp (env : Env) (s : Session) (p : PaymentR) (w : World) :
    World × PaymentR :=
  let userEmail := normEmail p.email
  let found := findUserByEmail w userEmail
  let user0 := found.getD (newUser userEmail false)
  let creditsToAdd := creditsToAddOf s.metadata.quantity p.amountCents
  let creditsBefore := user0.matchCredits
  let user1 := { user0 with matchCredits := creditsBefore + creditsToAdd }
  let w := match found with
    | some _ => saveUser w user1
    | none => insertUser w user1
  let w := addTxn w
    { userId := user1.email, requestId := p.requestId,
      matchReportId := p.matchReportId, email := user1.email,
      creditsUsed := creditsToAdd, creditsBefore := creditsBefore,
      creditsAfter := user1.matchCredits, transactionType := "added",
      reason := "top_up" }
  match p.requestId with
  | none => (w, p)
  | some rid =>
    if rid = "general" then (w, p)
    else
      match findBuyerRequestById w rid with
      | none => (w, p)
      | some br =>
        let (w, report) :=
          match findReportByRequestId w rid with
          | some r => (w, r)
          | none => insertReport w (fun i =>
              { id := i, requestId := rid, email := br.email,
                status := "pending", paymentId := none, unlocked := false })
        let (w, user2) :=
          if 0 < user1.matchCredits then
            let before2 := user1.matchCredits
            let u := { user1 with matchCredits := before2 - 1 }
            let w := saveUser w u
            let w := addTxn w
              { userId := u.email, requestId := some rid,
                matchReportId := some report.id, email := u.email,
                creditsUsed := 1, creditsBefore := before2,
                creditsAfter := u.matchCredits, transactionType := "deducted",
                reason := "unlock_request" }
            (w, u)
          else (w, user1)
        let report := { report with
          status := "unlocked", paymentId := some p.id, unlocked := true }
        let w := saveReport w report
        let (w, p) :=
          if p.matchReportId = none then
            let p' := { p with matchReportId := some report.id }
            (savePayment w p', p')
          else (w, p)
        if user2.isVerified && hasActivePlanB env.now user2 &&
            0 < user2.matchCredits then
          if hasQualifiedSupplier env rid w then
            let before3 := user2.matchCredits
            let u := { user2 with matchCredits := before3 - 1 }
            let w := saveUser w u
            let w := addTxn w
              { userId := u.email, requestId := some rid,
                matchReportId := some report.id, email := u.email,
                creditsUsed := 1, creditsBefore := before3,
                creditsAfter := u.matchCredits, transactionType := "deducted",
                reason := "match_generation" }
            let w := saveReport w { report with status := "completed" }
            (saveBuyerRequest w { br with status := "processing" }, p)
          else (w, p)
        else (w, p)

/-- The guarded report unlock used by the sync paths (`status !== "unlocked"`). -/
def syncUnlockReport (w : World) (p : PaymentR) : World :=
  match p.matchReportId with
  | none => w
  | some mid =>
    match findReportById w mid with
    | none => w
    | some mr =>
      if mr.status ≠ "unlocked" then
        saveReport w { mr with
          status := "unlocked", paymentId := some p.id, unlocked := true }
      else w

/-- `syncPaymentStatus`: locate the latest payment for `(requestId, owner)`;
an already-succeeded record short-circuits to a no-op success; otherwise the
definitive status is pulled from the provider (by payment intent, by session
id, or by listing recent sessions) and the webhook's transition logic is
replayed. -/
def syncPaymentStatus (env : Env) (penv : ProviderEnv) (authEmail : String)
    (requestId : String) (w : World) : Resp × World :=
  if !validObjectId requestId then (respErr 500 "Internal server error", w)
  else
    let authNorm := normEmail authEmail
    match (w.payments.filter fun p =>
        p.requestId = some requestId && jsToLower p.email = authNorm).getLast? with
    | none => (respErr 404 "Payment not found", w)
    | some payment =>
      if payment.status = "succeeded" then
        (respData "Payment already processed" payment, w)
      else if !penv.configured then (respNotCompleted payment, w)
      else
        match optTruthy payment.stripePaymentIntentId with
        | some pid =>
          match penv.intentStatus pid with
          | none => (respNotCompleted payment, w)
          | some st =>
            if st = "succeeded" then
              let p := { payment with status := "succeeded", paid := true }
              let w := savePayment w p
              let w := syncUnlockReport w p
              (respData "Payment status synced successfully" p, w)
            else (respNotCompleted payment, w)
        | none =>
          match optTruthy payment.stripeSessionId with
          | some sid =>
            match penv.sessionById sid with
            | none => (respNotCompleted payment, w)
            | some sess =>
              if sess.payment_status = "paid" then
                let p := { payment with
                  stripePaymentIntentId := sess.payment_intent,
                  stripeCustomerId := sess.customer,
                  stripeSubscriptionId :=
                    match optTruthy sess.subscription with
                    | some sub => some sub
                    | none => payment.stripeSubscriptionId,
                  status := "succeeded", paid := true }
                let w := savePayment w p
                let staleAuthUser := findUserByEmail w authNorm
                let (w, p) :=
                  if p.planType = "extra_credit" then syncTopUp env sess p w
                  else (syncUnlockReport w p, p)
                let w :=
                  match optTruthy sess.subscription with
                  | none => w
                  | some _ =>
                    match staleAuthUser with
                    | none => w
                    | some u =>
                      let (u', txn) := subscriptionUserUpdate w.plans env.now
                        sess.customer sess.subscription p.planType u
                      saveUser (addTxn w txn) u'
                (respData "Payment status synced successfully" p, w)
              else (respNotCompleted payment, w)
          | none =>
            match penv.sessions.find? (fun ss =>
                ss.client_reference_id = some requestId &&
                ss.payment_status = "paid") with
            | some ms =>
              if (optTruthy ms.payment_intent).isSome then
                let p := { payment with
                  stripePaymentIntentId := ms.payment_intent,
                  stripeCustomerId := ms.customer,
                  status := "succeeded", paid := true }
                let w := savePayment w p
                let w := syncUnlockReport w p
                (respData "Payment status synced successfully" p, w)
              else (respNotCompleted payment, w)
            | none => (respNotCompleted payment, w)

/-! ## Token service (`services/tokenService.js`)

The HMAC (`crypto.createHmac("sha256", SECRET)` + hex digest) and the
base64url codec (`Buffer`) are node-runtime primitives, taken as function
parameters `hmac`, `enc`, `dec` of the embedded operations; `JSON.stringify`
/ `JSON.parse` of the flat payload object are embedded concretely. -/

/-- The token payload object built by `generateToken`. -/
structure Payload where
  email : String
  requestId : Option String
  ptype : String
  timestamp : Nat
  deriving Repr, DecidableEq

/-- Decimal digits of a natural number, least significant first (structural
recursion on a fuel bound so the kernel can evaluate it). -/
def natDigitsRevFuel : Nat → Nat → List Char
  | 0, _ => []
  | fuel + 1, n =>
    if n < 10 then [Nat.digitChar n]
    else Nat.digitChar (n % 10) :: natDigitsRevFuel fuel (n / 10)

/-- Decimal digits of a natural number, least significant first. -/
def natDigitsRev (n : Nat) : List Char := natDigitsRevFuel (n + 1) n

/-- Decimal rendering of a natural number (`JSON.stringify` of an integer). -/
def natStr (n : Nat) : String := String.mk (natDigitsRev n).reverse

/-- `JSON.stringify` of the payload object (no escaping: faithful for field
values free of `"` and `\`). -/
def stringifyPayload (p : Payload) : String :=
  "\x7b\"email\":\"" ++ p.email ++ "\",\"requestId\":" ++
  (match p.requestId with
   | some r => "\"" ++ r ++ "\""
   | none => "null") ++
  ",\"type\":\"" ++ p.ptype ++ "\",\"timestamp\":" ++ natStr p.timestamp ++ "\x7d"

/-- Match an expected literal prefix, returning the remainder. -/
def stripLit : List Char → List Char → Option (List Char)
  | [], r => some r
  | _ :: _, [] => none
  | c :: cs, d :: ds => if d = c then stripLit cs ds else none

/-- Scan a JSON string body up to the closing quote (no escape handling). -/
def takeUntilQuote : List Char → Option (List Char × List Char)
  | [] => none
  | c :: cs =>
    if c = '"' then some ([], cs)
    else
      match takeUntilQuote cs with
      | some (a, r) => some (c :: a, r)
      | none => none

/-- Scan a maximal run of decimal digits. -/
def takeDigits : List Char → List Char × List Char
  | [] => ([], [])
  | c :: cs =>
    if c.isDigit then
      let (d, r) := takeDigits cs
      (c :: d, r)
    else ([], c :: cs)

/-- Numeric value of a most-significant-first digit list. -/
def digitsVal (l : List Char) : Nat :=
  l.foldl (fun a c => a * 10 + (c.toNat - 48)) 0

/-- Tail of the payload parser after the requestId field. -/
def parsePayloadTail (email : List Char) (rid : Option (List Char))
    (r : List Char) : Option Payload := do
  let r ← stripLit ",\"type\":\"".data r
  let (t, r) ← takeUntilQuote r
  let r ← stripLit ",\"timestamp\":".data r
  let (ds, r) := takeDigits r
  if ds.isEmpty then none
  else if r = ['\x7d'] then
    some ⟨String.mk email, rid.map String.mk, String.mk t, digitsVal ds⟩
  else none

/-- `JSON.parse` restricted to the exact shape `stringifyPayload` emits (any
other input models a parse that fails or yields an object the verifier
rejects). -/
def parsePayload (s : String) : Option Payload := do
  let r ← stripLit "\x7b\"email\":\"".data s.data
  let (email, r) ← takeUntilQuote r
  let r ← stripLit ",\"requestId\":".data r
  if r.head? = some '"' then do
    let (rid, r2) ← takeUntilQuote r.tail
    parsePayloadTail email (some rid) r2
  else do
    let r ← stripLit "null".data r
    parsePayloadTail email none r

/-- The `TOKEN_EXPIRY` table in milliseconds (`|| TOKEN_EXPIRY.payment`
fallback included). -/
def tokenExpiry (t : String) : Int :=
  if t = "payment" then 30 * 24 * 60 * 60 * 1000
  else if t = "verification" then 24 * 60 * 60 * 1000
  else if t = "accountSetup" then 7 * 24 * 60 * 60 * 1000
  else if t = "passwordReset" then 60 * 60 * 1000
  else 30 * 24 * 60 * 60 * 1000

/-- The `payloadString` local of `generateToken`: the stringified payload
object (email lowercased and trimmed, falsy requestId stored as null). -/
def tokenPayloadString (email : String) (requestId : Option String)
    (ptype : String) (nowMs : Nat) : String :=
  stringifyPayload
    { email := normEmail email, requestId := optTruthy requestId,
      ptype := ptype, timestamp := nowMs }

/-- `generateToken(email, requestId, type)` at time `nowMs`:
base64url payload, a dot, and the hex HMAC of the payload string. -/
def generateToken (enc hmac : String → String) (email : String)
    (requestId : Option String) (ptype : String) (nowMs : Nat) : String :=
  enc (tokenPayloadString email requestId ptype nowMs) ++ "." ++
    hmac (tokenPayloadString email requestId ptype nowMs)

/-- JS `String#split(".")`, on the underlying character list. -/
def splitOnDotData : List Char → List (List Char)
  | [] => [[]]
  | c :: cs =>
    let r := splitOnDotData cs
    if c = '.' then [] :: r
    else
      match r with
      | h :: t => (c :: h) :: t
      | [] => [[c]]

/-- JS `String#split(".")`. -/
def splitOnDot (s : String) : List String :=
  (splitOnDotData s.data).map String.mk

/-- Result of `verifyToken`. -/
structure VerifyResult where
  valid : Bool
  error : String
  deriving Repr, DecidableEq

/-- `verifyToken(token, expectedEmail, expectedRequestId, type)` at time
`nowMs`: split, decode, parse, recompute and compare the HMAC, then check
email (case-insensitively), requestId (when expected), type, and expiry. -/
def verifyToken (dec : String → Option String) (hmac : String → String)
    (token : String) (expectedEmail : String)
    (expectedRequestId : Option String) (ptype : String) (nowMs : Nat) :
    VerifyResult :=
  let parts := splitOnDot token
  let a := parts.headD ""
  let b := ((parts.drop 1).head?).getD ""
  if a = "" || b = "" then ⟨false, "Invalid token format"⟩
  else
    match dec a with
    | none => ⟨false, "Token verification failed"⟩
    | some payloadString =>
      match parsePayload payloadString with
      | none => ⟨false, "Token verification failed"⟩
      | some payload =>
        if hmac payloadString ≠ b then ⟨false, "Invalid token signature"⟩
        else if normEmail payload.email ≠ normEmail expectedEmail then
          ⟨false, "Email mismatch"⟩
        else if (match optTruthy expectedRequestId with
                 | some er => decide (payload.requestId ≠ some er)
                 | none => false) then ⟨false, "Request ID mismatch"⟩
        else if payload.ptype ≠ ptype then ⟨false, "Token type mismatch"⟩
        else if tokenExpiry payload.ptype <
            (nowMs : Int) - (payload.timestamp : Int) then
          ⟨false, "Token expired"⟩
        else ⟨true, ""⟩

/-! ## Ledger-consistency predicate (spec §8, "Ledger consistency") -/

/-- Signed sum of a user's ledger entries (`added` counts positive,
`deducted`/`expired` negative); accounts are created with balance 0. -/
def ledgerSum (w : World) (email : String) : Int :=
  (w.creditTxns.filter (fun t => t.email = email)).foldl
    (fun a t => a + (if t.transactionType = "added" then t.creditsUsed
                     else -t.creditsUsed)) 0

/-- `Account.creditBalance == initialBalance + Σ(CreditTransaction.creditsUsed, signed)`
together with non-negativity, for every account. -/
def ledgerConsistent (w : World) : Prop :=
  ∀ u ∈ w.users, u.matchCredits = ledgerSum w u.email ∧ 0 ≤ u.matchCredits

instance (w : World) : Decidable (ledgerConsistent w) := by
  unfold ledgerConsistent; infer_instance

/-! ## Theorems -/

/-- **C4**: a succeeded subscription payment allocates
`creditsGranted + min(currentBalance, maxRollover)` when `maxRollover > 0`
and `currentBalance > 0`, otherwise `creditsGranted`; the webhook's
subscription branch computes exactly this, and a professional plan
(fallback grant 15, rollover cap 3) turns balance 5 into 18 and balance 0
into 15. -/
theorem C4_rollover_correctness :
    (∀ (plans : List PlanR) (pt : String) (cur : Int),
      allocateCredits plans pt cur =
        if 0 < getMaxRolloverCredits plans pt && 0 < cur then
          getCreditsForPlan plans pt + min cur (getMaxRolloverCredits plans pt)
        else getCreditsForPlan plans pt) ∧
    (∀ (plans : List PlanR) (now : JSDate) (c sb : Option String)
        (pt : String) (u : UserR),
      (subscriptionUserUpdate plans now c sb pt u).1.matchCredits =
        allocateCredits plans pt u.matchCredits) ∧
    allocateCredits [] "professional_monthly" 5 = 18 ∧
    allocateCredits [] "professional_monthly" 0 = 15 := by
  refine ⟨fun plans pt cur => rfl, fun plans now c sb pt u => rfl, by decide, by decide⟩

/-- **C8**: the expiry written by a succeeded subscription payment is
computed from the allocation time only — it is invariant under the account's
previous `subscriptionExpiresAt` — and equals now plus one calendar month
for monthly plans and now plus one calendar year for annual plans. -/
theorem C8_expiry_from_now :
    (∀ (plans : List PlanR) (now : JSDate) (c sb : Option String)
        (pt : String) (u : UserR) (e' : Option JSDate),
      (pt = "starter_monthly" ∨ pt = "starter_annual" ∨
       pt = "professional_monthly" ∨ pt = "professional_annual") →
      (subscriptionUserUpdate plans now c sb pt
          { u with subscriptionExpiresAt := e' }).1.subscriptionExpiresAt =
        (subscriptionUserUpdate plans now c sb pt u).1.subscriptionExpiresAt) ∧
    (∀ (plans : List PlanR) (now : JSDate) (c sb : Option String)
        (pt : String) (u : UserR),
      (pt = "starter_monthly" ∨ pt = "professional_monthly") →
      (subscriptionUserUpdate plans now c sb pt u).1.subscriptionExpiresAt =
        some (addOneMonthJS now)) ∧
    (∀ (plans : List PlanR) (now : JSDate) (c sb : Option String)
        (pt : String) (u : UserR),
      (pt = "starter_annual" ∨ pt = "professional_annual") →
      (subscriptionUserUpdate plans now c sb pt u).1.subscriptionExpiresAt =
        some (addOneYearJS now)) := by
  refine ⟨?_, ?_, ?_⟩
  · intro plans now c sb pt u e' h
    rcases h with h | h | h | h <;> subst h <;>
      simp [subscriptionUserUpdate, computeExpiryUpdate]
  · intro plans now c sb pt u h
    rcases h with h | h <;> subst h <;>
      simp [subscriptionUserUpdate, computeExpiryUpdate]
  · intro plans now c sb pt u h
    rcases h with h | h <;> subst h <;>
      simp [subscriptionUserUpdate, computeExpiryUpdate]

/-- Witness for C8 at a concrete plan, date, and user. -/
theorem C8_expiry_from_now_witness :
    (subscriptionUserUpdate [] ⟨2026, 0, 15⟩ none none "professional_monthly"
        { newUser "a@b.com" true with
            subscriptionExpiresAt := some ⟨2020, 5, 5⟩ }).1.subscriptionExpiresAt =
      (subscriptionUserUpdate [] ⟨2026, 0, 15⟩ none none "professional_monthly"
        (newUser "a@b.com" true)).1.subscriptionExpiresAt ∧
    (subscriptionUserUpdate [] ⟨2026, 0, 15⟩ none none "professional_monthly"
        (newUser "a@b.com" true)).1.subscriptionExpiresAt =
      some (addOneMonthJS ⟨2026, 0, 15⟩) := by
  constructor
  · exact C8_expiry_from_now.1 [] ⟨2026, 0, 15⟩ none none "professional_monthly"
      (newUser "a@b.com" true) (some ⟨2020, 5, 5⟩) (by decide)
  · exact C8_expiry_from_now.2.1 [] ⟨2026, 0, 15⟩ none none "professional_monthly"
      (newUser "a@b.com" true) (Or.inr rfl)

/-- **C10**: an `invoice.payment_succeeded` event matched to a user sets the
balance to the constant 25 and the status to `active`, writes no ledger
entry, and leaves every user's `subscriptionExpiresAt` as it was. -/
theorem C10_invoice_resets_credits_to_25 (inv : Invoice) (w : World)
    (sub : String) (u : UserR)
    (hs : optTruthy inv.subscription = some sub)
    (hu : (match w.users.find? (fun v => v.stripeSubscriptionId = some sub) with
           | some v => some v
           | none => (optTruthy inv.customer_email).bind fun e =>
               findUserByEmail w (normEmail e)) = some u)
    (huniq : ∀ v ∈ w.users, v.email = u.email → v = u) :
    (handleInvoicePaymentSucceeded inv w).2 =
      saveUser w { u with matchCredits := 25, subscriptionStatus := "active" } ∧
    (handleInvoicePaymentSucceeded inv w).2.creditTxns = w.creditTxns ∧
    (handleInvoicePaymentSucceeded inv w).2.users.map
        (fun v => (v.email, v.subscriptionExpiresAt)) =
      w.users.map (fun v => (v.email, v.subscriptionExpiresAt)) := by
  have h : handleInvoicePaymentSucceeded inv w =
      (respReceived,
        saveUser w { u with matchCredits := 25, subscriptionStatus := "active" }) := by
    unfold handleInvoicePaymentSucceeded
    rw [hs]
    dsimp only
    rw [hu]
  refine ⟨by rw [h], by rw [h]; rfl, ?_⟩
  rw [h]
  simp only [saveUser, List.map_map]
  apply List.map_congr_left
  intro a ha
  simp only [Function.comp]
  by_cases hc : a.email = u.email
  · have hau : a = u := huniq a ha hc
    subst hau
    simp
  · simp [hc]

/-- The subscriber of the C10/C3 scenarios: balance 3, explained by one
ledger entry. -/
def C10user : UserR :=
  { newUser "s@x.com" true with
    stripeSubscriptionId := some "sub_9", matchCredits := 3 }

/-- One-user world whose ledger explains the balance of 3. -/
def C3world : World :=
  { users := [C10user],
    payments := [], reports := [], buyerRequests := [], managedServices := [],
    creditTxns := [⟨"s@x.com", none, none, "s@x.com", 3, 0, 3, "added", "top_up"⟩],
    suppliers := [], plans := [], nextId := 0 }

/-- Witness for C10 at a concrete invoice and world. -/
theorem C10_invoice_resets_credits_to_25_witness :
    (handleInvoicePaymentSucceeded ⟨"in_1", some "sub_9", none⟩ C3world).2 =
      saveUser C3world
        { C10user with matchCredits := 25, subscriptionStatus := "active" } := by
  exact (C10_invoice_resets_credits_to_25 ⟨"in_1", some "sub_9", none⟩ C3world
    "sub_9" C10user (by decide) (by decide) (by decide)).1

/-! ### C2: the located-record path of the webhook -/

/-- A valid 24-hex ObjectId used by the C2 scenario. -/
def C2rid : String := "aaaaaaaaaaaaaaaaaaaaaaaa"

/-- The pending payment record created at checkout-session creation, keyed
by the provider session id. -/
def C2payment : PaymentR :=
  { id := 0, requestId := some C2rid, matchReportId := some 1,
    email := "buyer@x.com", amountCents := 4900,
    planType := "professional_monthly", status := "pending",
    stripePaymentIntentId := none, stripeSessionId := some "cs_1",
    stripeCustomerId := none, stripeSubscriptionId := none, paid := false }

/-- World with the pending record, its report and request, and the buyer. -/
def C2world : World :=
  { users := [newUser "buyer@x.com" true],
    payments := [C2payment],
    reports := [{ id := 1, requestId := C2rid, email := "buyer@x.com",
                  status := "pending", paymentId := none, unlocked := false }],
    buyerRequests := [{ id := C2rid, email := "buyer@x.com",
                        status := "submitted" }],
    managedServices := [], creditTxns := [], suppliers := [], plans := [],
    nextId := 2 }

/-- The completed checkout session for that pending record. -/
def C2session : Session :=
  { id := "cs_1", payment_intent := some "pi_1", customer := some "cus_1",
    subscription := some "sub_1", customer_email := some "buyer@x.com",
    client_reference_id := some C2rid, amount_total := 4900,
    payment_status := "paid",
    metadata := { mtype := none, paymentType := none,
                  requestId := some C2rid,
                  planType := some "professional_monthly", quantity := none,
                  email := none, verificationToken := none } }

/-- A fixed handler environment (clock, scorer, provider lookups). -/
def C2env : Env := ⟨⟨2026, 0, 15⟩, fun _ _ => 0, fun _ => none⟩

/-- **C2** (code bug): for a standard purchase whose pending PaymentRecord
already exists under the provider session id, the webhook acknowledges the
event but applies none of the claimed effects — the record stays `pending`,
the report stays `pending`, no ledger entry and no account change is made —
because the processing block is nested inside the record-not-found branch. -/
theorem C2_webhook_skips_existing_pending_record :
    handleCheckoutCompleted C2env C2session C2world = (respReceived, C2world) ∧
    (handleCheckoutCompleted C2env C2session C2world).2.payments.map
      PaymentR.status = ["pending"] ∧
    (handleCheckoutCompleted C2env C2session C2world).2.reports.map
      MatchReportR.status = ["pending"] ∧
    (handleCheckoutCompleted C2env C2session C2world).2.creditTxns = [] := by
  decide

/-- **C3** (code bug): on a ledger-consistent world, the
`invoice.payment_succeeded` renewal path changes the account balance
(3 becomes the constant 25) while appending no CreditTransaction, so the
ledger-consistency invariant of the spec does not survive the operation. -/
theorem C3_ledger_invariant_broken_by_invoice_renewal :
    ledgerConsistent C3world ∧
    (handleInvoicePaymentSucceeded ⟨"in_1", some "sub_9", none⟩
        C3world).2.creditTxns = C3world.creditTxns ∧
    (handleInvoicePaymentSucceeded ⟨"in_1", some "sub_9", none⟩
        C3world).2.users.map UserR.matchCredits = [25] ∧
    ¬ ledgerConsistent
        (handleInvoicePaymentSucceeded ⟨"in_1", some "sub_9", none⟩
          C3world).2 := by
  decide

/-- **C6**: a deduction that would drive the balance below zero — unlocking
with balance below 1 — is rejected with a 400 "Insufficient match credits"
response and the world (balance and ledger) is untouched; the
`processMatching` deduction step likewise performs no write at a
non-positive balance. -/
theorem C6_insufficient_credits_rejected (w : World) (authEmail id : String)
    (u : UserR) (req : BuyerRequestR) (mr : MatchReportR)
    (hu : findUserByEmail w authEmail = some u)
    (hv : validObjectId id = true)
    (hr : w.buyerRequests.find? (fun r => r.id = id && r.email = u.email) =
      some req)
    (hm : findReportByRequestId w id = some mr)
    (hnl : ¬ mr.status = "unlocked")
    (hc : u.matchCredits < 1) :
    unlockRequest w authEmail id =
      (respErr 400 "Insufficient match credits", w) ∧
    (unlockRequest w authEmail id).2.creditTxns = w.creditTxns ∧
    (unlockRequest w authEmail id).2.users = w.users ∧
    (∀ (u' : UserR) (rid : String) (mrid : Option Nat),
      u'.matchCredits ≤ 0 → processMatchingDeduct w u' rid mrid = w) := by
  have h : unlockRequest w authEmail id =
      (respErr 400 "Insufficient match credits", w) := by
    simp [unlockRequest, hu, hv, hr, hm, hnl, hc]
  refine ⟨h, by rw [h], by rw [h], ?_⟩
  intro u' rid mrid hle
  unfold processMatchingDeduct
  rw [if_neg (by omega)]

/-- A valid ObjectId for the C6 scenario. -/
def C6rid : String := "bbbbbbbbbbbbbbbbbbbbbbbb"

/-- World of the C6 witness: owner with balance 0, pending report. -/
def C6world : World :=
  { users := [newUser "z@x.com" true],
    payments := [],
    reports := [{ id := 1, requestId := C6rid, email := "z@x.com",
                  status := "pending", paymentId := none, unlocked := false }],
    buyerRequests := [{ id := C6rid, email := "z@x.com",
                        status := "submitted" }],
    managedServices := [], creditTxns := [], suppliers := [], plans := [],
    nextId := 2 }

/-- Witness for C6: balance 0, unlock rejected, world unchanged. -/
theorem C6_insufficient_credits_rejected_witness :
    unlockRequest C6world "z@x.com" C6rid =
      (respErr 400 "Insufficient match credits", C6world) := by
  exact (C6_insufficient_credits_rejected C6world "z@x.com" C6rid
    (newUser "z@x.com" true) ⟨C6rid, "z@x.com", "submitted"⟩
    ⟨1, C6rid, "z@x.com", "pending", none, false⟩
    (by decide) (by decide) (by decide) (by decide) (by decide) (by decide)).1

/-- **C9**: the sync-one endpoint short-circuits an already-succeeded
payment record to a success response carrying the current record, with no
state change at all. -/
theorem C9_sync_already_succeeded_noop (env : Env) (penv : ProviderEnv)
    (authEmail requestId : String) (w : World) (p : PaymentR)
    (hv : validObjectId requestId = true)
    (hp : (w.payments.filter fun q =>
        q.requestId = some requestId &&
        jsToLower q.email = normEmail authEmail).getLast? = some p)
    (hs : p.status = "succeeded") :
    syncPaymentStatus env penv authEmail requestId w =
      (respData "Payment already processed" p, w) := by
  simp [syncPaymentStatus, hv, hp, hs]

/-- A valid ObjectId for the C9 scenario. -/
def C9rid : String := "cccccccccccccccccccccccc"

/-- The already-succeeded record of the C9 witness. -/
def C9payment : PaymentR :=
  { id := 0, requestId := some C9rid, matchReportId := none,
    email := "y@x.com", amountCents := 4900, planType := "one-time",
    status := "succeeded", stripePaymentIntentId := some "pi_9",
    stripeSessionId := none, stripeCustomerId := none,
    stripeSubscriptionId := none, paid := true }

/-- World of the C9 witness. -/
def C9world : World :=
  { users := [newUser "y@x.com" true],
    payments := [C9payment],
    reports := [], buyerRequests := [], managedServices := [],
    creditTxns := [], suppliers := [], plans := [], nextId := 1 }

/-- Witness for C9 at a concrete world and provider. -/
theorem C9_sync_already_succeeded_noop_witness :
    syncPaymentStatus C2env ⟨true, fun _ => none, fun _ => none, []⟩
      "y@x.com" C9rid C9world =
      (respData "Payment already processed" C9payment, C9world) := by
  exact C9_sync_already_succeeded_noop C2env
    ⟨true, fun _ => none, fun _ => none, []⟩ "y@x.com" C9rid C9world C9payment
    (by decide) (by decide) (by decide)

/-! ### Helper lemmas on saves and lookups -/

/-- Updating the freshly appended payment (by its fresh id) rewrites only it. -/
theorem map_update_append (l : List PaymentR) (x y : PaymentR) (i : Nat)
    (hl : ∀ q ∈ l, q.id ≠ i) (hx : x.id = i) :
    (l ++ [x]).map (fun q => if q.id = i then y else q) = l ++ [y] := by
  rw [List.map_append]
  congr 1
  · have h : ∀ q ∈ l, (fun q => if q.id = i then y else q) q = id q := by
      intro q hq
      simp [hl q hq]
    rw [List.map_congr_left h, List.map_id]
  · simp [hx]

/-- After a save keyed by the email the `findOne` used, the first match is
the saved document. -/
theorem find?_after_saveUser (l : List UserR) (key : String) (u u' : UserR)
    (hf : l.find? (fun v => v.email = key) = some u)
    (hu' : u'.email = u.email) :
    (l.map (fun v => if v.email = u'.email then u' else v)).find?
      (fun v => v.email = key) = some u' := by
  induction l with
  | nil => simp at hf
  | cons h t ih =>
    by_cases hh : h.email = key
    · rw [List.find?_cons_of_pos _ (by simp [hh])] at hf
      injection hf with hf
      subst hf
      simp only [List.map_cons]
      rw [List.find?_cons_of_pos _ (by simp [hu', hh])]
      simp [hu']
    · rw [List.find?_cons_of_neg _ (by simp [hh])] at hf
      have hu : u.email = key := by
        have := List.find?_some hf
        simpa using this
      have hne : ¬ h.email = u'.email := by rw [hu', hu]; exact hh
      simp only [List.map_cons, if_neg hne]
      rw [List.find?_cons_of_neg _ (by simp [hh])]
      exact ih hf

/-- After a save keyed by the saved report's (unique) id, the first report
matching a requestId the saved report also carries is the saved report. -/
theorem find?_after_saveReport (l : List MatchReportR) (rid : String)
    (mr r' : MatchReportR)
    (hf : l.find? (fun r => r.requestId = rid) = some mr)
    (hnd : (l.map MatchReportR.id).Nodup)
    (hr' : r'.requestId = rid) :
    (l.map (fun q => if q.id = mr.id then r' else q)).find?
      (fun r => r.requestId = rid) = some r' := by
  induction l with
  | nil => simp at hf
  | cons h t ih =>
    simp only [List.map_cons, List.nodup_cons] at hnd
    obtain ⟨hh1, hh2⟩ := hnd
    by_cases hh : h.requestId = rid
    · rw [List.find?_cons_of_pos _ (by simp [hh])] at hf
      injection hf with hf
      subst hf
      simp only [List.map_cons, if_pos rfl]
      rw [List.find?_cons_of_pos _ (by simp [hr'])]
      simp
    · rw [List.find?_cons_of_neg _ (by simp [hh])] at hf
      have hmem : mr ∈ t := List.mem_of_find?_eq_some hf
      have hid : ¬ h.id = mr.id := by
        intro hcon
        exact hh1 (hcon ▸ List.mem_map_of_mem MatchReportR.id hmem)
      simp only [List.map_cons, if_neg hid]
      rw [List.find?_cons_of_neg _ (by simp [hh])]
      exact ih hf hh2

/-- Two consecutive saves of same-keyed user documents collapse to the last. -/
theorem users_save_twice (l : List UserR) (u1 u2 : UserR)
    (h1 : u2.email = u1.email) :
    (l.map (fun v => if v.email = u1.email then u1 else v)).map
      (fun v => if v.email = u2.email then u2 else v) =
    l.map (fun v => if v.email = u2.email then u2 else v) := by
  rw [List.map_map]
  apply List.map_congr_left
  intro a _
  by_cases hv : a.email = u1.email <;> simp [Function.comp, hv, h1]

/-- Combined form: find after two same-keyed saves yields the last save. -/
theorem find?_after_save_twice (l : List UserR) (key : String)
    (u u1 u2 : UserR)
    (hf : l.find? (fun v => v.email = key) = some u)
    (h1 : u1.email = u.email) (h2 : u2.email = u1.email) :
    ((l.map (fun v => if v.email = u1.email then u1 else v)).map
      (fun v => if v.email = u2.email then u2 else v)).find?
      (fun v => v.email = key) = some u2 := by
  rw [users_save_twice l u1 u2 h2]
  exact find?_after_saveUser l key u u2 hf (h2.trans h1)

/-- `find?` skips a prefix with no match. -/
theorem find?_append_none {α : Type} (p : α → Bool) (l₁ l₂ : List α)
    (h : l₁.find? p = none) : (l₁ ++ l₂).find? p = l₂.find? p := by
  induction l₁ with
  | nil => simp
  | cons a t ih =>
    by_cases hp : p a = true
    · rw [List.find?_cons_of_pos _ hp] at h
      cases h
    · rw [List.find?_cons_of_neg _ hp] at h
      rw [List.cons_append, List.find?_cons_of_neg _ hp]
      exact ih h

/-- Looking a freshly inserted user up by its key finds it. -/
theorem find?_insert (l : List UserR) (key : String) (u1 : UserR)
    (hf : l.find? (fun v => v.email = key) = none) (h1 : u1.email = key) :
    (l ++ [u1]).find? (fun v => v.email = key) = some u1 := by
  rw [find?_append_none _ _ _ hf, List.find?_cons_of_pos _ (by simp [h1])]

/-- Inserting a fresh user and re-saving a same-keyed document: the lookup
finds the last saved document. -/
theorem find?_insert_save (l : List UserR) (key : String) (u1 u2 : UserR)
    (hf : l.find? (fun v => v.email = key) = none)
    (h1 : u1.email = key) (h2 : u2.email = u1.email) :
    ((l ++ [u1]).map (fun v => if v.email = u2.email then u2 else v)).find?
      (fun v => v.email = key) = some u2 := by
  have hpre : (l.map (fun v => if v.email = u2.email then u2 else v)).find?
      (fun v => v.email = key) = none := by
    rw [List.find?_eq_none]
    intro v hv
    obtain ⟨v0, hv0, rfl⟩ := List.mem_map.mp hv
    have hv0k := List.find?_eq_none.mp hf v0 hv0
    by_cases he : v0.email = u2.email
    · exact absurd (by simpa using he.trans (h2.trans h1))
        (by simpa using hv0k)
    · rw [if_neg he]
      simpa using hv0k
  rw [List.map_append, find?_append_none _ _ _ hpre]
  rw [show ([u1].map (fun v => if v.email = u2.email then u2 else v))
      = [u2] from by simp [h2.symm]]
  simp [h2, h1]

/-- The buyer-request lookup ignores a preceding user save and ledger
append. -/
theorem findBR_after_save (y : World) (u' : UserR) (t : CreditTxn)
    (i : String) :
    findBuyerRequestById (addTxn (saveUser y u') t) i =
      findBuyerRequestById y i := rfl

/-- The buyer-request lookup ignores a preceding user insert and ledger
append. -/
theorem findBR_after_insert (y : World) (u' : UserR) (t : CreditTxn)
    (i : String) :
    findBuyerRequestById (addTxn (insertUser y u') t) i =
      findBuyerRequestById y i := rfl

/-- The report lookup ignores a preceding user save and ledger append. -/
theorem findRep_after_save (y : World) (u' : UserR) (t : CreditTxn)
    (i : String) :
    findReportByRequestId (addTxn (saveUser y u') t) i =
      findReportByRequestId y i := rfl

/-- The report lookup ignores a preceding user insert and ledger append. -/
theorem findRep_after_insert (y : World) (u' : UserR) (t : CreditTxn)
    (i : String) :
    findReportByRequestId (addTxn (insertUser y u') t) i =
      findReportByRequestId y i := rfl

/-- `webhookTopUp` never touches the payments collection. -/
theorem webhookTopUp_payments (env : Env) (s : Session) (p : PaymentR)
    (x : World) : (webhookTopUp env s p x).2.payments = x.payments := by
  unfold webhookTopUp
  dsimp only
  repeat' split
  all_goals
    simp [saveUser, insertUser, addTxn, saveReport, insertReport,
      saveBuyerRequest]

/-- The `extra_credit` sub-handler on a store holding the request and its
report, for a found-or-created owner with any balance, whenever the inline
match generation does not fire: one `added`/`top_up` grant entry; a
one-credit `deducted`/`unlock_request` entry exactly when the post-top-up
balance is positive (a non-positive balance unlocks with no second entry);
the report unlocked either way. -/
theorem webhookTopUp_spec (env : Env) (s : Session) (p : PaymentR)
    (x : World) (rid : String) (mr : MatchReportR) (br : BuyerRequestR)
    (u0 : UserR) (q : Int)
    (hpr : p.requestId = some rid)
    (hng : ¬ rid = "general")
    (hbr : findBuyerRequestById x rid = some br)
    (hmr : findReportByRequestId x rid = some mr)
    (hnd : (x.reports.map MatchReportR.id).Nodup)
    (hu0 : (findUserByEmail x (normEmail p.email)).getD
      (newUser (normEmail p.email) false) = u0)
    (hq : creditsToAddOf s.metadata.quantity p.amountCents = q)
    (hnofire : u0.isVerified = false ∨ hasActivePlanB env.now u0 = false ∨
      (if 0 < u0.matchCredits + q then u0.matchCredits + q - 1
       else u0.matchCredits + q) ≤ 0 ∨
      hasQualifiedSupplier env rid x = false) :
    (webhookTopUp env s p x).2.creditTxns = x.creditTxns ++
      ({ userId := u0.email, requestId := some rid,
         matchReportId := p.matchReportId, email := u0.email,
         creditsUsed := q, creditsBefore := u0.matchCredits,
         creditsAfter := u0.matchCredits + q,
         transactionType := "added", reason := "top_up" } ::
       (if 0 < u0.matchCredits + q then
          [{ userId := u0.email, requestId := some rid,
             matchReportId := some mr.id, email := u0.email,
             creditsUsed := 1, creditsBefore := u0.matchCredits + q,
             creditsAfter := u0.matchCredits + q - 1,
             transactionType := "deducted", reason := "unlock_request" }]
        else [])) ∧
    findReportByRequestId (webhookTopUp env s p x).2 rid =
      some { mr with
             status := "unlocked", paymentId := some p.id,
             unlocked := true } ∧
    findUserByEmail (webhookTopUp env s p x).2 (normEmail p.email) =
      some { u0 with matchCredits :=
        if 0 < u0.matchCredits + q then u0.matchCredits + q - 1
        else u0.matchCredits + q } := by
  have hmrid : mr.requestId = rid := by
    have := List.find?_some hmr
    simpa using this
  cases hfound : findUserByEmail x (normEmail p.email) with
  | some u =>
    have hu : u = u0 := by
      rw [hfound] at hu0
      simpa using hu0
    subst hu
    by_cases hpos : 0 < u.matchCredits + q
    · have hstep : webhookTopUp env s p x = (respReceived,
          saveReport
            (addTxn
              (saveUser
                (addTxn
                  (saveUser x { u with matchCredits := u.matchCredits + q })
                  { userId := u.email, requestId := some rid,
                    matchReportId := p.matchReportId, email := u.email,
                    creditsUsed := q, creditsBefore := u.matchCredits,
                    creditsAfter := u.matchCredits + q,
                    transactionType := "added", reason := "top_up" })
                { u with matchCredits := u.matchCredits + q - 1 })
              { userId := u.email, requestId := some rid,
                matchReportId := some mr.id, email := u.email,
                creditsUsed := 1, creditsBefore := u.matchCredits + q,
                creditsAfter := u.matchCredits + q - 1,
                transactionType := "deducted", reason := "unlock_request" })
            { mr with
              status := "unlocked", paymentId := some p.id,
              unlocked := true }) := by
        unfold webhookTopUp
        dsimp only
        rw [hfound]
        dsimp only
        simp only [Option.getD_some]
        rw [hq, hpr]
        dsimp only
        rw [if_neg hng, findBR_after_save, hbr]
        dsimp only
        rw [findRep_after_save, hmr]
        dsimp only
        rw [if_pos hpos]
        dsimp only
        split
        · split
          · next hcond hqual =>
            exfalso
            simp only [Bool.and_eq_true, decide_eq_true_eq] at hcond
            rcases hnofire with h | h | h | h
            · simp [h] at hcond
            · have hsame : hasActivePlanB env.now
                  { u with matchCredits := u.matchCredits + q - 1 } =
                  hasActivePlanB env.now u := rfl
              simp [hsame, h] at hcond
            · rw [if_pos hpos] at h
              exact absurd hcond.2 (by omega)
            · have hx : hasQualifiedSupplier env rid x = true := hqual
              simp [h] at hx
          · rfl
        · rfl
      refine ⟨?_, ?_, ?_⟩
      · rw [hstep, if_pos hpos]
        simp [saveReport, addTxn, saveUser]
      · rw [hstep]
        exact find?_after_saveReport x.reports rid mr _ hmr hnd hmrid
      · rw [hstep, if_pos hpos]
        exact find?_after_save_twice x.users (normEmail p.email) u _ _
          hfound rfl rfl
    · have hstep : webhookTopUp env s p x = (respReceived,
          saveReport
            (addTxn
              (saveUser x { u with matchCredits := u.matchCredits + q })
              { userId := u.email, requestId := some rid,
                matchReportId := p.matchReportId, email := u.email,
                creditsUsed := q, creditsBefore := u.matchCredits,
                creditsAfter := u.matchCredits + q,
                transactionType := "added", reason := "top_up" })
            { mr with
              status := "unlocked", paymentId := some p.id,
              unlocked := true }) := by
        unfold webhookTopUp
        dsimp only
        rw [hfound]
        dsimp only
        simp only [Option.getD_some]
        rw [hq, hpr]
        dsimp only
        rw [if_neg hng, findBR_after_save, hbr]
        dsimp only
        rw [findRep_after_save, hmr]
        dsimp only
        rw [if_neg hpos]
        dsimp only
        split
        · next hcond =>
          exfalso
          simp only [Bool.and_eq_true, decide_eq_true_eq] at hcond
          exact absurd hcond.2 hpos
        · rfl
      refine ⟨?_, ?_, ?_⟩
      · rw [hstep, if_neg hpos]
        simp [saveReport, addTxn, saveUser]
      · rw [hstep]
        exact find?_after_saveReport x.reports rid mr _ hmr hnd hmrid
      · rw [hstep, if_neg hpos]
        exact find?_after_saveUser x.users (normEmail p.email) u _
          hfound rfl
  | none =>
    have hu : newUser (normEmail p.email) false = u0 := by
      rw [hfound] at hu0
      simpa using hu0
    subst hu
    by_cases hpos :
        0 < (newUser (normEmail p.email) false).matchCredits + q
    · have hstep : webhookTopUp env s p x = (respReceived,
          saveReport
            (addTxn
              (saveUser
                (addTxn
                  (insertUser x
                    { newUser (normEmail p.email) false with matchCredits :=
                        (newUser (normEmail p.email) false).matchCredits + q })
                  { userId := (newUser (normEmail p.email) false).email,
                    requestId := some rid,
                    matchReportId := p.matchReportId,
                    email := (newUser (normEmail p.email) false).email,
                    creditsUsed := q,
                    creditsBefore :=
                      (newUser (normEmail p.email) false).matchCredits,
                    creditsAfter :=
                      (newUser (normEmail p.email) false).matchCredits + q,
                    transactionType := "added", reason := "top_up" })
                { newUser (normEmail p.email) false with matchCredits :=
                    (newUser (normEmail p.email) false).matchCredits + q - 1 })
              { userId := (newUser (normEmail p.email) false).email,
                requestId := some rid,
                matchReportId := some mr.id,
                email := (newUser (normEmail p.email) false).email,
                creditsUsed := 1,
                creditsBefore :=
                  (newUser (normEmail p.email) false).matchCredits + q,
                creditsAfter :=
                  (newUser (normEmail p.email) false).matchCredits + q - 1,
                transactionType := "deducted", reason := "unlock_request" })
            { mr with
              status := "unlocked", paymentId := some p.id,
              unlocked := true }) := by
        unfold webhookTopUp
        dsimp only
        rw [hfound]
        dsimp only
        simp only [Option.getD_none]
        rw [hq, hpr]
        dsimp only
        rw [if_neg hng, findBR_after_insert, hbr]
        dsimp only
        rw [findRep_after_insert, hmr]
        dsimp only
        rw [if_pos hpos]
        dsimp only
        split
        · split
          · next hcond hqual =>
            exfalso
            simp only [Bool.and_eq_true, decide_eq_true_eq] at hcond
            rcases hnofire with h | h | h | h
            · simp [h] at hcond
            · have hsame : hasActivePlanB env.now
                  { newUser (normEmail p.email) false with matchCredits :=
                    (newUser (normEmail p.email) false).matchCredits
                      + q - 1 } =
                  hasActivePlanB env.now
                    (newUser (normEmail p.email) false) := rfl
              simp [hsame, h] at hcond
            · rw [if_pos hpos] at h
              exact absurd hcond.2 (by omega)
            · have hx : hasQualifiedSupplier env rid x = true := hqual
              simp [h] at hx
          · rfl
        · rfl
      refine ⟨?_, ?_, ?_⟩
      · rw [hstep, if_pos hpos]
        simp [saveReport, addTxn, saveUser, insertUser]
      · rw [hstep]
        exact find?_after_saveReport x.reports rid mr _ hmr hnd hmrid
      · rw [hstep, if_pos hpos]
        exact find?_insert_save x.users (normEmail p.email) _ _
          hfound rfl rfl
    · have hstep : webhookTopUp env s p x = (respReceived,
          saveReport
            (addTxn
              (insertUser x
                { newUser (normEmail p.email) false with matchCredits :=
                    (newUser (normEmail p.email) false).matchCredits + q })
              { userId := (newUser (normEmail p.email) false).email,
                requestId := some rid,
                matchReportId := p.matchReportId,
                email := (newUser (normEmail p.email) false).email,
                creditsUsed := q,
                creditsBefore :=
                  (newUser (normEmail p.email) false).matchCredits,
                creditsAfter :=
                  (newUser (normEmail p.email) false).matchCredits + q,
                transactionType := "added", reason := "top_up" })
            { mr with
              status := "unlocked", paymentId := some p.id,
              unlocked := true }) := by
        unfold webhookTopUp
        dsimp only
        rw [hfound]
        dsimp only
        simp only [Option.getD_none]
        rw [hq, hpr]
        dsimp only
        rw [if_neg hng, findBR_after_insert, hbr]
        dsimp only
        rw [findRep_after_insert, hmr]
        dsimp only
        rw [if_neg hpos]
        dsimp only
        split
        · next hcond =>
          exfalso
          simp only [Bool.and_eq_true, decide_eq_true_eq] at hcond
          exact absurd hcond.2 hpos
        · rfl
      refine ⟨?_, ?_, ?_⟩
      · rw [hstep, if_neg hpos]
        simp [saveReport, addTxn, saveUser, insertUser]
      · rw [hstep]
        exact find?_after_saveReport x.reports rid mr _ hmr hnd hmrid
      · rw [hstep, if_neg hpos]
        exact find?_insert x.users (normEmail p.email) _ hfound rfl

/-- **C5** (amended): a webhook-processed credit top-up tied to a specific
request (record reconstructed from the session, requestId present, not
`"general"`, the request and its MatchReport stored, the inline match
generation not firing) marks the created PaymentRecord `succeeded`, adds
the purchased credits — metadata quantity, or `floor(amount / $10)` when
absent, possibly zero — to the owner account (created on the fly when
missing) with one `added`/`top_up` ledger entry, and leaves the request's
MatchReport `unlocked`.  The one-credit `deducted`/`unlock_request` entry
is written exactly when the post-top-up balance is positive: a zero-credit
top-up at a zero balance unlocks the report with no second entry.  (When
the generation does fire — verified owner, active plan, credits remaining
after the unlock, a qualified supplier — a third `match_generation` entry
is written and the report ends `completed`: see the counterexample.) -/
theorem C5_topup_tied_to_request (env : Env) (s : Session) (w : World)
    (rid : String) (mr : MatchReportR) (br : BuyerRequestR) (u0 : UserR)
    (q : Int)
    (hwf : WF w)
    (hmt : s.metadata.mtype = none)
    (hpt : s.metadata.paymentType = none)
    (hlook : findPaymentForSession s w = LookupResult.notFound)
    (hrid : optTruthy s.metadata.requestId = some rid)
    (hplan : s.metadata.planType = some "extra_credit")
    (hng : ¬ rid = "general")
    (hval : validObjectId rid = true)
    (hmr : findReportByRequestId w rid = some mr)
    (hbr : findBuyerRequestById w rid = some br)
    (hu0 : (findUserByEmail w (normEmail (topUpEmailOf s))).getD
      (newUser (normEmail (topUpEmailOf s)) false) = u0)
    (hq : creditsToAddOf s.metadata.quantity s.amount_total = q)
    (hnofire : u0.isVerified = false ∨ hasActivePlanB env.now u0 = false ∨
      (if 0 < u0.matchCredits + q then u0.matchCredits + q - 1
       else u0.matchCredits + q) ≤ 0 ∨
      hasQualifiedSupplier env rid w = false) :
    (handleCheckoutCompleted env s w).2.creditTxns = w.creditTxns ++
      ({ userId := u0.email, requestId := some rid,
         matchReportId := some mr.id, email := u0.email,
         creditsUsed := q, creditsBefore := u0.matchCredits,
         creditsAfter := u0.matchCredits + q,
         transactionType := "added", reason := "top_up" } ::
       (if 0 < u0.matchCredits + q then
          [{ userId := u0.email, requestId := some rid,
             matchReportId := some mr.id, email := u0.email,
             creditsUsed := 1, creditsBefore := u0.matchCredits + q,
             creditsAfter := u0.matchCredits + q - 1,
             transactionType := "deducted", reason := "unlock_request" }]
        else [])) ∧
    findReportByRequestId (handleCheckoutCompleted env s w).2 rid =
      some { mr with
             status := "unlocked", paymentId := some w.nextId,
             unlocked := true } ∧
    findUserByEmail (handleCheckoutCompleted env s w).2
        (normEmail (topUpEmailOf s)) =
      some { u0 with matchCredits :=
        if 0 < u0.matchCredits + q then u0.matchCredits + q - 1
        else u0.matchCredits + q } ∧
    (handleCheckoutCompleted env s w).2.payments.map PaymentR.status =
      w.payments.map PaymentR.status ++ ["succeeded"] := by
  obtain ⟨hwfp, hwfpnd, hwfr, hwfrnd⟩ := hwf
  have hdisp : handleCheckoutCompleted env s w =
      webhookTopUp env s
        (enrichAndSucceed env s (topUpPaymentOf s rid (some mr.id) w.nextId))
        (savePayment
          { w with
            payments := w.payments ++
              [topUpPaymentOf s rid (some mr.id) w.nextId],
            nextId := w.nextId + 1 }
          (enrichAndSucceed env s
            (topUpPaymentOf s rid (some mr.id) w.nextId))) := by
    unfold handleCheckoutCompleted
    rw [hmt, hpt, if_neg (by simp), if_neg (by simp), hlook]
    dsimp only
    rw [hrid]
    dsimp only
    unfold createFromSession
    rw [hplan, if_pos rfl]
    dsimp only
    rw [if_neg (by simp [hng, hval]), hmr]
    rw [if_neg hng]
    simp only [Option.map_some']
    unfold insertPayment processCreated
    dsimp only
    rw [if_pos (show (enrichAndSucceed env s
        (topUpPaymentOf s rid (some mr.id) w.nextId)).planType =
        "extra_credit" from rfl)]
  have hpr1 : (enrichAndSucceed env s
      (topUpPaymentOf s rid (some mr.id) w.nextId)).requestId =
      some rid := by
    simp [enrichAndSucceed, topUpPaymentOf, hng]
  obtain ⟨hA, hB, hC⟩ := webhookTopUp_spec env s
    (enrichAndSucceed env s (topUpPaymentOf s rid (some mr.id) w.nextId))
    (savePayment
      { w with
        payments := w.payments ++
          [topUpPaymentOf s rid (some mr.id) w.nextId],
        nextId := w.nextId + 1 }
      (enrichAndSucceed env s (topUpPaymentOf s rid (some mr.id) w.nextId)))
    rid mr br u0 q hpr1 hng hbr hmr hwfrnd hu0 hq hnofire
  refine ⟨?_, ?_, ?_, ?_⟩
  · rw [hdisp]
    exact hA
  · rw [hdisp]
    exact hB
  · rw [hdisp]
    exact hC
  · rw [hdisp, webhookTopUp_payments]
    have hpay : ((w.payments ++
        [topUpPaymentOf s rid (some mr.id) w.nextId]).map
        (fun q' => if q'.id = (enrichAndSucceed env s
            (topUpPaymentOf s rid (some mr.id) w.nextId)).id then
          enrichAndSucceed env s (topUpPaymentOf s rid (some mr.id) w.nextId)
          else q')) =
        w.payments ++
          [enrichAndSucceed env s
            (topUpPaymentOf s rid (some mr.id) w.nextId)] :=
      map_update_append _ _ _ _
        (fun q' hq' => Nat.ne_of_lt (hwfp q' hq')) rfl
    show ((w.payments ++ [topUpPaymentOf s rid (some mr.id) w.nextId]).map
        _).map PaymentR.status = _
    rw [hpay]
    simp [List.map_append]
    rfl

/-- A valid ObjectId for the C5 witness scenario. -/
def C5wrid : String := "eeeeeeeeeeeeeeeeeeeeeeee"

/-- The C5 witness session: $10 top-up (quantity 1) tied to the request. -/
def C5wsession : Session :=
  { id := "cs_51", payment_intent := some "pi_51", customer := none,
    subscription := none, customer_email := none,
    client_reference_id := none, amount_total := 1000,
    payment_status := "paid",
    metadata := { mtype := none, paymentType := none,
                  requestId := some C5wrid,
                  planType := some "extra_credit", quantity := some 1,
                  email := some "w@x.com", verificationToken := none } }

/-- The pending report of the C5 witness. -/
def C5wreport : MatchReportR := ⟨1, C5wrid, "w@x.com", "pending", none, false⟩

/-- The C5 witness world: unverified owner with balance 0, pending report. -/
def C5wworld : World :=
  { users := [newUser "w@x.com" false],
    payments := [],
    reports := [C5wreport],
    buyerRequests := [⟨C5wrid, "w@x.com", "submitted"⟩],
    managedServices := [], creditTxns := [], suppliers := [], plans := [],
    nextId := 2 }

/-- The C5 zero-credit witness session: a metadata-less $5 top-up (quantity
absent, `floor(500 cents / $10) = 0` credits) tied to the same request. -/
def C5zsession : Session :=
  { id := "cs_52", payment_intent := some "pi_52", customer := none,
    subscription := none, customer_email := none,
    client_reference_id := none, amount_total := 500,
    payment_status := "paid",
    metadata := { mtype := none, paymentType := none,
                  requestId := some C5wrid,
                  planType := some "extra_credit", quantity := none,
                  email := some "w@x.com", verificationToken := none } }

/-- Witness for C5: the $10 request-tied top-up leaves the report unlocked
(with its two ledger entries), and the zero-credit $5 top-up writes only
the single `top_up` entry while still unlocking the report. -/
theorem C5_topup_tied_to_request_witness :
    findReportByRequestId
        (handleCheckoutCompleted C2env C5wsession C5wworld).2 C5wrid =
      some { C5wreport with
             status := "unlocked", paymentId := some 2,
             unlocked := true } ∧
    (handleCheckoutCompleted C2env C5zsession C5wworld).2.creditTxns =
      [{ userId := "w@x.com", requestId := some C5wrid,
         matchReportId := some 1, email := "w@x.com",
         creditsUsed := 0, creditsBefore := 0, creditsAfter := 0,
         transactionType := "added", reason := "top_up" }] := by
  refine ⟨(C5_topup_tied_to_request C2env C5wsession C5wworld C5wrid
    C5wreport ⟨C5wrid, "w@x.com", "submitted"⟩ (newUser "w@x.com" false) 1
    (by decide) (by decide) (by decide) (by decide) (by decide) (by decide)
    (by decide) (by decide) (by decide) (by decide) (by decide) (by decide)
    (by decide)).2.1, ?_⟩
  have h := (C5_topup_tied_to_request C2env C5zsession C5wworld C5wrid
    C5wreport ⟨C5wrid, "w@x.com", "submitted"⟩ (newUser "w@x.com" false) 0
    (by decide) (by decide) (by decide) (by decide) (by decide) (by decide)
    (by decide) (by decide) (by decide) (by decide) (by decide) (by decide)
    (by decide)).1
  rw [h]
  decide

/-- A valid ObjectId for the C5 counterexample scenario. -/
def C5xrid : String := "ffffffffffffffffffffffff"

/-- The C5 counterexample owner: verified, active subscription, balance 0. -/
def C5xuser : UserR :=
  { email := "v@x.com", isVerified := true, subscriptionStatus := "active",
    subscriptionPlan := some "professional_monthly",
    subscriptionExpiresAt := none, stripeCustomerId := none,
    stripeSubscriptionId := none, matchCredits := 0 }

/-- The C5 counterexample session: $20 top-up (quantity 2) tied to the
request. -/
def C5xsession : Session :=
  { id := "cs_52", payment_intent := some "pi_52", customer := none,
    subscription := none, customer_email := none,
    client_reference_id := none, amount_total := 2000,
    payment_status := "paid",
    metadata := { mtype := none, paymentType := none,
                  requestId := some C5xrid,
                  planType := some "extra_credit", quantity := some 2,
                  email := some "v@x.com", verificationToken := none } }

/-- The C5 counterexample world: one active supplier qualifies. -/
def C5xworld : World :=
  { users := [C5xuser], payments := [],
    reports := [⟨1, C5xrid, "v@x.com", "pending", none, false⟩],
    buyerRequests := [⟨C5xrid, "v@x.com", "submitted"⟩],
    managedServices := [], creditTxns := [],
    suppliers := [⟨1, true⟩], plans := [], nextId := 2 }

/-- The C5 counterexample environment (scorer rates the supplier 80). -/
def C5xenv : Env := ⟨⟨2026, 0, 15⟩, fun _ _ => 80, fun _ => none⟩

/-- C5 counterexample: for a request-tied top-up by a verified owner with an
active subscription and a qualified supplier, successful webhook processing
writes THREE ledger entries (the third with reason `match_generation`) and
leaves the report `completed`, not `unlocked` — refuting the claim as
stated. -/
theorem C5_autogen_counterexample :
    (handleCheckoutCompleted C5xenv C5xsession C5xworld).2.payments.map
      PaymentR.status = ["succeeded"] ∧
    (handleCheckoutCompleted C5xenv C5xsession C5xworld).2.creditTxns.map
      CreditTxn.reason = ["top_up", "unlock_request", "match_generation"] ∧
    (findReportByRequestId (handleCheckoutCompleted C5xenv C5xsession
      C5xworld).2 C5xrid).map MatchReportR.status = some "completed" := by
  decide

/-! ### Replay (idempotency) infrastructure for C1 -/

/-- Analogue of `find?_after_saveUser` for managed services (keyed by id). -/
theorem find?_after_saveMS (l : List ManagedServiceR) (i : String)
    (m m' : ManagedServiceR)
    (hf : l.find? (fun x => x.id = i) = some m) (hm' : m'.id = m.id) :
    (l.map (fun q => if q.id = m.id then m' else q)).find?
      (fun x => x.id = i) = some m' := by
  induction l with
  | nil => simp at hf
  | cons h t ih =>
    by_cases hh : h.id = i
    · rw [List.find?_cons_of_pos _ (by simp [hh])] at hf
      injection hf with hf
      subst hf
      simp only [List.map_cons, if_pos rfl]
      rw [List.find?_cons_of_pos _ (by simp [hm', hh])]
      simp
    · rw [List.find?_cons_of_neg _ (by simp [hh])] at hf
      have hm : m.id = i := by
        have := List.find?_some hf
        simpa using this
      have hne : ¬ h.id = m.id := by rw [hm]; exact hh
      simp only [List.map_cons, if_neg hne]
      rw [List.find?_cons_of_neg _ (by simp [hh])]
      exact ih hf

/-- Setting `isVerified := true` on an already verified user is the
identity. -/
theorem setVerified_self (u : UserR) (h : u.isVerified = true) :
    ({ u with isVerified := true } : UserR) = u := by
  cases u
  simp_all

/-- The managed-service user step is idempotent on the user list. -/
theorem ensureVerifiedUsers_idem (l : List UserR) (ce : String) :
    ensureVerifiedUsers (ensureVerifiedUsers l ce) ce =
      ensureVerifiedUsers l ce := by
  unfold ensureVerifiedUsers
  cases hf : l.find? (fun v => v.email = ce) with
  | none =>
    have hub : ∀ v ∈ l, ¬ (v.email = ce) := by
      intro v hv
      have := List.find?_eq_none.mp hf v hv
      simpa using this
    rw [find?_append_none _ _ _ hf]
    rw [List.find?_cons_of_pos _ (by simp [newUser])]
    simp only [List.map_append]
    congr 1
    · have : ∀ v ∈ l,
          (fun v => if v.email = (newUser ce true).email then
            { newUser ce true with isVerified := true } else v) v = id v := by
        intro v hv
        simp [newUser, hub v hv]
      rw [List.map_congr_left this, List.map_id]
    · simp [newUser]
  | some u =>
    rw [find?_after_saveUser l ce u ({ u with isVerified := true }) hf rfl]
    exact users_save_twice l _ _ rfl

/-- `handleManagedService` never touches the credit ledger. -/
theorem managedService_txns (s : Session) (x : World) :
    (handleManagedService s x).2.creditTxns = x.creditTxns := by
  unfold handleManagedService
  repeat' split
  all_goals
    simp [saveManagedService, insertPayment, ensureVerifiedUser]

/-- `handleSavingsFee` touches neither users, the ledger, nor reports. -/
theorem savingsFee_preserves (s : Session) (x : World) :
    (handleSavingsFee s x).2.users = x.users ∧
    (handleSavingsFee s x).2.creditTxns = x.creditTxns ∧
    (handleSavingsFee s x).2.reports = x.reports := by
  unfold handleSavingsFee
  repeat' split
  all_goals
    simp [saveManagedService, insertPayment]

/-- `handleStandardTail` never touches the payments collection. -/
theorem handleStandardTail_payments (env : Env) (s : Session) (p : PaymentR)
    (x : World) :
    (handleStandardTail env s p x).2.payments = x.payments := by
  unfold handleStandardTail
  dsimp only
  repeat' split
  all_goals rfl

/-- Payments after `processCreated`: the save rewrites the in-place record,
the sub-handlers add none. -/
theorem processCreated_payments (env : Env) (s : Session) (p : PaymentR)
    (x : World) :
    (processCreated env s p x).2.payments =
      x.payments.map (fun q =>
        if q.id = (enrichAndSucceed env s p).id then enrichAndSucceed env s p
        else q) := by
  unfold processCreated
  by_cases h : (enrichAndSucceed env s p).planType = "extra_credit"
  · rw [if_pos h, webhookTopUp_payments]
    rfl
  · rw [if_neg h, handleStandardTail_payments]
    rfl

/-- What a `notFound` lookup says about the store: no record carries the
session id, and (when the requestId conditions are nonempty) they cast
cleanly and match no record either. -/
theorem notFound_facts (s : Session) (w : World)
    (h : findPaymentForSession s w = LookupResult.notFound) :
    (if s.id ≠ "" then
        w.payments.find? (fun p => p.stripeSessionId = some s.id)
      else none) = none ∧
    (¬ (sessionConds s).isEmpty = true →
      condsValid (sessionConds s) = true ∧
      w.payments.find? (fun p =>
        (sessionConds s).any (fun c => condMatches c p)) = none) := by
  unfold findPaymentForSession at h
  split at h
  · exact absurd h (by simp)
  · next hnone =>
    refine ⟨hnone, fun hne => ?_⟩
    rw [if_neg hne] at h
    by_cases hcv : condsValid (sessionConds s) = true
    · rw [if_neg (by simp [hcv])] at h
      refine ⟨hcv, ?_⟩
      split at h
      · exact absurd h (by simp)
      · next hfind => exact hfind
    · have hcvf : condsValid (sessionConds s) = false := by
        cases hb : condsValid (sessionConds s)
        · rfl
        · exact absurd hb hcv
      rw [if_pos hcvf] at h
      exact absurd h (by simp)

/-- A store extended with one record that matches the session (by session id
or by a requestId condition) makes the replayed lookup land on it. -/
theorem findPayment_on_appended (s : Session) (rid : String) (w x : World)
    (p1 : PaymentR)
    (hnf : findPaymentForSession s w = LookupResult.notFound)
    (hrid : optTruthy s.metadata.requestId = some rid)
    (hx : x.payments = w.payments ++ [p1])
    (hm : (s.id ≠ "" ∧ p1.stripeSessionId = some s.id) ∨
      condMatches (if rid = "general" then PayCond.generalTopUp
        else PayCond.byRequestId rid) p1 = true) :
    findPaymentForSession s x = LookupResult.found p1 := by
  obtain ⟨h1, h2⟩ := notFound_facts s w hnf
  have hconds : sessionConds s =
      (if rid = "general" then PayCond.generalTopUp
        else PayCond.byRequestId rid) ::
      (match optTruthy s.client_reference_id with
       | some r => [if r = "general" then PayCond.generalTopUp
           else PayCond.byRequestId r]
       | none => []) := by
    unfold sessionConds
    rw [hrid]
    rfl
  have hne : ¬ (sessionConds s).isEmpty = true := by
    rw [hconds]
    simp
  obtain ⟨hcv, hfb⟩ := h2 hne
  unfold findPaymentForSession
  rw [hx]
  rcases hm with ⟨hid, hps⟩ | hcm
  · rw [if_pos hid] at h1
    rw [if_pos hid, find?_append_none _ _ _ h1]
    simp [List.find?, hps]
  · have hany : (sessionConds s).any (fun c => condMatches c p1) = true := by
      rw [hconds]
      simp [hcm]
    by_cases hid : s.id = ""
    · rw [if_neg (by simp [hid])]
      dsimp only
      rw [if_neg hne, if_neg (by simp [hcv]), find?_append_none _ _ _ hfb]
      simp [List.find?, hany]
    · rw [if_pos hid] at h1
      by_cases hps : p1.stripeSessionId = some s.id
      · rw [if_pos hid, find?_append_none _ _ _ h1]
        simp [List.find?, hps]
      · rw [if_pos hid, find?_append_none _ _ _ h1]
        rw [show List.find?
            (fun p => decide (p.stripeSessionId = some s.id)) [p1] = none
          from by simp [List.find?, hps]]
        dsimp only
        rw [if_neg hne, if_neg (by simp [hcv]), find?_append_none _ _ _ hfb]
        simp [List.find?, hany]

/-- Replaying the webhook after it lazily created and processed a payment
record finds that record (and therefore, by the nesting bug, does nothing). -/
theorem replay_after_create (env : Env) (s : Session) (rid : String)
    (w : World) (p0 : PaymentR) (hwf : WF w)
    (hnf : findPaymentForSession s w = LookupResult.notFound)
    (hrid : optTruthy s.metadata.requestId = some rid)
    (hid0 : p0.id = w.nextId)
    (hm : (s.id ≠ "" ∧
        (enrichAndSucceed env s p0).stripeSessionId = some s.id) ∨
      condMatches (if rid = "general" then PayCond.generalTopUp
        else PayCond.byRequestId rid) (enrichAndSucceed env s p0) = true) :
    ∃ p, findPaymentForSession s
      (processCreated env s p0
        { w with payments := w.payments ++ [p0],
                 nextId := w.nextId + 1 }).2 = LookupResult.found p := by
  obtain ⟨hwfp, _, _, _⟩ := hwf
  refine ⟨enrichAndSucceed env s p0,
    findPayment_on_appended s rid w _ _ hnf hrid ?_ hm⟩
  rw [processCreated_payments]
  show (w.payments ++ [p0]).map _ = _
  refine map_update_append w.payments p0 (enrichAndSucceed env s p0) _ ?_ rfl
  intro q hq
  rw [show (enrichAndSucceed env s p0).id = p0.id from rfl, hid0]
  exact Nat.ne_of_lt (hwfp q hq)

/-- The found-service run of `handleManagedService`, in closed form. -/
theorem handleManagedService_found (s : Session) (w : World) (rid : String)
    (ms : ManagedServiceR)
    (hr : s.metadata.requestId = some rid) (hv : validObjectId rid = true)
    (hms : findManagedServiceById w rid = some ms) :
    (handleManagedService s w).2 =
      { users := ensureVerifiedUsers w.users
          (normEmail ((optTruthy s.customer_email).getD ms.email)),
        payments := w.payments ++
          [{ id := w.nextId, requestId := some ms.id, matchReportId := none,
             email := normEmail ((optTruthy s.customer_email).getD ms.email),
             amountCents := ms.serviceFeeAmountCents,
             planType := "managed_service", status := "succeeded",
             stripePaymentIntentId := s.payment_intent,
             stripeSessionId := none, stripeCustomerId := s.customer,
             stripeSubscriptionId := none, paid := true }],
        reports := w.reports,
        buyerRequests := w.buyerRequests,
        managedServices := w.managedServices.map (fun q =>
          if q.id = ms.id then
            { ms with
              userId := some (normEmail
                ((optTruthy s.customer_email).getD ms.email)),
              serviceFeeStatus := "paid",
              serviceFeePaymentId := s.payment_intent,
              status := "in_progress", stage := "review" }
          else q),
        creditTxns := w.creditTxns,
        suppliers := w.suppliers,
        plans := w.plans,
        nextId := w.nextId + 1 } := by
  unfold handleManagedService
  rw [hr]
  dsimp only
  rw [if_neg (by simp [hv]), hms]
  rfl

/-- Replaying the managed-service sub-handler leaves the account list, the
ledger, and the reports exactly as after the first run. -/
theorem managedService_replay (s : Session) (w : World) :
    (handleManagedService s (handleManagedService s w).2).2.users =
      (handleManagedService s w).2.users ∧
    (handleManagedService s (handleManagedService s w).2).2.creditTxns =
      (handleManagedService s w).2.creditTxns ∧
    (handleManagedService s (handleManagedService s w).2).2.reports =
      (handleManagedService s w).2.reports := by
  cases hr : s.metadata.requestId with
  | none =>
    have h1 : (handleManagedService s w).2 = w := by
      unfold handleManagedService
      rw [hr]
    rw [h1, h1]
    exact ⟨rfl, rfl, rfl⟩
  | some rid =>
    by_cases hv : validObjectId rid = true
    · cases hms : findManagedServiceById w rid with
      | none =>
        have h1 : (handleManagedService s w).2 = w := by
          unfold handleManagedService
          rw [hr]
          dsimp only
          rw [if_neg (by simp [hv]), hms]
        rw [h1, h1]
        exact ⟨rfl, rfl, rfl⟩
      | some ms =>
        rw [handleManagedService_found s w rid ms hr hv hms]
        have hms1 : findManagedServiceById
            { users := ensureVerifiedUsers w.users
                (normEmail ((optTruthy s.customer_email).getD ms.email)),
              payments := w.payments ++
                [{ id := w.nextId, requestId := some ms.id,
                   matchReportId := none,
                   email := normEmail
                     ((optTruthy s.customer_email).getD ms.email),
                   amountCents := ms.serviceFeeAmountCents,
                   planType := "managed_service", status := "succeeded",
                   stripePaymentIntentId := s.payment_intent,
                   stripeSessionId := none, stripeCustomerId := s.customer,
                   stripeSubscriptionId := none, paid := true }],
              reports := w.reports,
              buyerRequests := w.buyerRequests,
              managedServices := w.managedServices.map (fun q =>
                if q.id = ms.id then
                  { ms with
                    userId := some (normEmail
                      ((optTruthy s.customer_email).getD ms.email)),
                    serviceFeeStatus := "paid",
                    serviceFeePaymentId := s.payment_intent,
                    status := "in_progress", stage := "review" }
                else q),
              creditTxns := w.creditTxns,
              suppliers := w.suppliers,
              plans := w.plans,
              nextId := w.nextId + 1 } rid =
            some { ms with
              userId := some (normEmail
                ((optTruthy s.customer_email).getD ms.email)),
              serviceFeeStatus := "paid",
              serviceFeePaymentId := s.payment_intent,
              status := "in_progress", stage := "review" } := by
          unfold findManagedServiceById at hms ⊢
          exact find?_after_saveMS w.managedServices rid ms _ hms rfl
        rw [handleManagedService_found s _ rid _ hr hv hms1]
        refine ⟨?_, rfl, rfl⟩
        dsimp only
        exact ensureVerifiedUsers_idem w.users _
    · have hvf : validObjectId rid = false := by
        cases hb : validObjectId rid
        · rfl
        · exact absurd hb hv
      have h1 : (handleManagedService s w).2 = w := by
        unfold handleManagedService
        rw [hr]
        dsimp only
        rw [if_pos hvf]
      rw [h1, h1]
      exact ⟨rfl, rfl, rfl⟩

/-- **C1**: processing the same `checkout.session.completed` event twice
yields the same account balances and subscription expiries as processing it
once, the same credit ledger (one `CreditTransaction` per logical grant, not
two), and the same match reports (no double unlock).  The second run either
repeats a no-op branch, performs only idempotent writes (managed-service
branches), or finds the record the first run created by session id or
requestId and — the processing block being nested inside the not-found
branch — leaves it untouched. -/
theorem C1_webhook_replay_idempotent (env : Env) (s : Session) (w : World)
    (hwf : WF w) :
    usersView (handleCheckoutCompleted env s
        (handleCheckoutCompleted env s w).2).2 =
      usersView (handleCheckoutCompleted env s w).2 ∧
    (handleCheckoutCompleted env s
        (handleCheckoutCompleted env s w).2).2.creditTxns =
      (handleCheckoutCompleted env s w).2.creditTxns ∧
    (handleCheckoutCompleted env s
        (handleCheckoutCompleted env s w).2).2.reports =
      (handleCheckoutCompleted env s w).2.reports := by
  by_cases hmg : s.metadata.mtype = some "managed_service"
  · have hd : ∀ x : World,
        handleCheckoutCompleted env s x = handleManagedService s x := by
      intro x
      unfold handleCheckoutCompleted
      rw [if_pos hmg]
    rw [hd, hd]
    obtain ⟨h1, h2, h3⟩ := managedService_replay s w
    exact ⟨by unfold usersView; rw [h1], h2, h3⟩
  · by_cases hsv : (s.metadata.mtype = some "managed_service_savings_fee" ||
        s.metadata.paymentType = some "savings_fee") = true
    · have hd : ∀ x : World,
          handleCheckoutCompleted env s x = handleSavingsFee s x := by
        intro x
        unfold handleCheckoutCompleted
        rw [if_neg hmg, if_pos hsv]
      rw [hd, hd]
      obtain ⟨h1, h2, h3⟩ := savingsFee_preserves s (handleSavingsFee s w).2
      exact ⟨by unfold usersView; rw [h1], h2, h3⟩
    · have hd : ∀ x : World, handleCheckoutCompleted env s x =
          (match findPaymentForSession s x with
           | LookupResult.castErr => (respErr 500 "webhook error", x)
           | LookupResult.found _ => (respReceived, x)
           | LookupResult.notFound =>
             match optTruthy s.metadata.requestId with
             | none => (respReceived, x)
             | some rid => createFromSession env s rid x) := by
        intro x
        unfold handleCheckoutCompleted
        rw [if_neg hmg, if_neg hsv]
      cases hl : findPaymentForSession s w with
      | castErr =>
        have h1 : (handleCheckoutCompleted env s w).2 = w := by
          rw [hd, hl]
        rw [h1, h1]
        exact ⟨rfl, rfl, rfl⟩
      | found p =>
        have h1 : (handleCheckoutCompleted env s w).2 = w := by
          rw [hd, hl]
        rw [h1, h1]
        exact ⟨rfl, rfl, rfl⟩
      | notFound =>
        cases hr : optTruthy s.metadata.requestId with
        | none =>
          have h1 : (handleCheckoutCompleted env s w).2 = w := by
            rw [hd, hl]
            dsimp only
            rw [hr]
          rw [h1, h1]
          exact ⟨rfl, rfl, rfl⟩
        | some rid =>
          have h1 : handleCheckoutCompleted env s w =
              createFromSession env s rid w := by
            rw [hd, hl]
            dsimp only
            rw [hr]
          have hmain : (createFromSession env s rid w).2 = w ∨
              ∃ p, findPaymentForSession s
                (createFromSession env s rid w).2 =
                LookupResult.found p := by
            by_cases hpt : s.metadata.planType = some "extra_credit"
            · by_cases hg : rid = "general"
              · subst hg
                refine Or.inr ?_
                unfold createFromSession
                rw [if_pos hpt, if_neg (by decide)]
                rw [if_pos (rfl : "general" = "general")]
                unfold insertPayment
                dsimp only
                exact replay_after_create env s "general" w
                  (topUpPaymentOf s "general" none w.nextId) hwf hl hr rfl
                  (Or.inr (by
                    rw [if_pos rfl]
                    simp [condMatches, enrichAndSucceed, topUpPaymentOf]))
              · by_cases hvr : validObjectId rid = true
                · refine Or.inr ?_
                  unfold createFromSession
                  rw [if_pos hpt, if_neg (by simp [hg, hvr]), if_neg hg]
                  unfold insertPayment
                  dsimp only
                  have hid0 : (topUpPaymentOf s rid
                      ((findReportByRequestId w rid).map (·.id))
                      w.nextId).id = w.nextId := rfl
                  have hcm : condMatches
                      (if rid = "general" then PayCond.generalTopUp
                        else PayCond.byRequestId rid)
                      (enrichAndSucceed env s (topUpPaymentOf s rid
                        ((findReportByRequestId w rid).map (·.id))
                        w.nextId)) = true := by
                    rw [if_neg hg]
                    simp only [condMatches, enrichAndSucceed,
                      topUpPaymentOf]
                    simp [hg]
                  have htmp := replay_after_create env s rid w
                    (topUpPaymentOf s rid
                      ((findReportByRequestId w rid).map (·.id)) w.nextId)
                    hwf hl hr hid0 (Or.inr hcm)
                  exact htmp
                · have hvf : validObjectId rid = false := by
                    cases hb : validObjectId rid
                    · rfl
                    · exact absurd hb hvr
                  refine Or.inl ?_
                  unfold createFromSession
                  rw [if_pos hpt, if_pos ⟨hg, hvf⟩]
            · by_cases hvr : validObjectId rid = true
              · cases hmr : findReportByRequestId w rid with
                | none =>
                  refine Or.inl ?_
                  unfold createFromSession
                  rw [if_neg hpt, if_neg (by simp [hvr]), hmr]
                | some mr =>
                  have hg : ¬ rid = "general" := by
                    intro hcon
                    rw [hcon] at hvr
                    exact absurd hvr (by decide)
                  refine Or.inr ?_
                  unfold createFromSession
                  rw [if_neg hpt, if_neg (by simp [hvr]), hmr]
                  unfold insertPayment
                  dsimp only
                  exact replay_after_create env s rid w _ hwf hl hr rfl
                    (Or.inr (by
                      rw [if_neg hg]
                      simp [condMatches, enrichAndSucceed]))
              · have hvf : validObjectId rid = false := by
                  cases hb : validObjectId rid
                  · rfl
                  · exact absurd hb hvr
                refine Or.inl ?_
                unfold createFromSession
                rw [if_neg hpt, if_pos hvf]
          rcases hmain with hC | ⟨p, hp⟩
          · have hC2 : (handleCheckoutCompleted env s w).2 = w := by
              rw [h1, hC]
            rw [hC2, hC2]
            exact ⟨rfl, rfl, rfl⟩
          · generalize hw1 : (handleCheckoutCompleted env s w).2 = w1
            have hw1' : w1 = (createFromSession env s rid w).2 := by
              rw [← hw1, h1]
            have h2 : (handleCheckoutCompleted env s w1).2 = w1 := by
              rw [hd w1, hw1', hp]
            rw [h2]
            exact ⟨rfl, rfl, rfl⟩

/-- A valid ObjectId for the C1 witness scenario. -/
def C1rid : String := "dddddddddddddddddddddddd"

/-- The C1 witness session: a request-tied top-up, replayed twice. -/
def C1session : Session :=
  { id := "cs_11", payment_intent := some "pi_11", customer := none,
    subscription := none, customer_email := none,
    client_reference_id := none, amount_total := 1000,
    payment_status := "paid",
    metadata := { mtype := none, paymentType := none,
                  requestId := some C1rid,
                  planType := some "extra_credit", quantity := some 1,
                  email := some "r@x.com", verificationToken := none } }

/-- The C1 witness world: unverified owner, pending report and request. -/
def C1world : World :=
  { users := [newUser "r@x.com" false],
    payments := [],
    reports := [⟨1, C1rid, "r@x.com", "pending", none, false⟩],
    buyerRequests := [⟨C1rid, "r@x.com", "submitted"⟩],
    managedServices := [], creditTxns := [], suppliers := [], plans := [],
    nextId := 2 }

/-- Witness for C1: replaying the witness top-up event leaves the balances,
the ledger, and the reports exactly as after the first run. -/
theorem C1_webhook_replay_idempotent_witness :
    WF C1world ∧
    (usersView (handleCheckoutCompleted C2env C1session
        (handleCheckoutCompleted C2env C1session C1world).2).2 =
      usersView (handleCheckoutCompleted C2env C1session C1world).2 ∧
    (handleCheckoutCompleted C2env C1session
        (handleCheckoutCompleted C2env C1session C1world).2).2.creditTxns =
      (handleCheckoutCompleted C2env C1session C1world).2.creditTxns ∧
    (handleCheckoutCompleted C2env C1session
        (handleCheckoutCompleted C2env C1session C1world).2).2.reports =
      (handleCheckoutCompleted C2env C1session C1world).2.reports) :=
  ⟨by decide,
    C1_webhook_replay_idempotent C2env C1session C1world (by decide)⟩

/-! ### Token service (C7): string, parser, and normalization lemmas -/

/-- Rebuilding a string from its own characters is the identity. -/
theorem string_mk_data (s : String) : String.mk s.data = s := rfl

/-- `.data` distributes over string concatenation. -/
theorem string_data_append (a b : String) :
    (a ++ b).data = a.data ++ b.data := rfl

/-- `Option` bind on a `some` reduces to the continuation. -/
theorem option_some_bind {α β : Type} (a : α) (f : α → Option β) :
    ((some a : Option α) >>= f) = f a := rfl

/-- Stripping a literal prefix off itself-plus-remainder succeeds. -/
theorem stripLit_self (l r : List Char) : stripLit l (l ++ r) = some r := by
  induction l with
  | nil => rfl
  | cons c t ih => simp [stripLit, ih]

/-- Scanning to the closing quote of a quote-free body. -/
theorem takeUntilQuote_eq (a r : List Char) (h : '"' ∉ a) :
    takeUntilQuote (a ++ '"' :: r) = some (a, r) := by
  induction a with
  | nil => simp [takeUntilQuote]
  | cons c t ih =>
    simp only [List.mem_cons, not_or] at h
    obtain ⟨h1, h2⟩ := h
    simp [takeUntilQuote, Ne.symm h1, ih h2]

/-- Digit scanning consumes exactly the leading digit run. -/
theorem takeDigits_digits (ds r : List Char)
    (hd : ∀ c ∈ ds, c.isDigit = true)
    (hr : ∀ c t, r = c :: t → c.isDigit = false) :
    takeDigits (ds ++ r) = (ds, r) := by
  induction ds with
  | nil =>
    cases r with
    | nil => rfl
    | cons c t => simp [takeDigits, hr c t rfl]
  | cons c t ih =>
    have hc := hd c (by simp)
    simp [takeDigits, hc, ih (fun x hx => hd x (by simp [hx]))]

/-- Digit characters below ten are decimal digits. -/
theorem digitChar_isDigit (m : Nat) (h : m < 10) :
    (Nat.digitChar m).isDigit = true := by
  interval_cases m <;> decide

/-- Value of a digit character below ten. -/
theorem digitChar_toNat (m : Nat) (h : m < 10) :
    (Nat.digitChar m).toNat - 48 = m := by
  interval_cases m <;> decide

/-- Every character emitted by the decimal renderer is a digit. -/
theorem natDigitsRevFuel_digits (fuel : Nat) : ∀ (n : Nat), n < fuel →
    ∀ c ∈ natDigitsRevFuel fuel n, c.isDigit = true := by
  induction fuel with
  | zero => omega
  | succ f ih =>
    intro n hn c hc
    rw [natDigitsRevFuel] at hc
    by_cases h10 : n < 10
    · rw [if_pos h10] at hc
      simp only [List.mem_singleton] at hc
      subst hc
      exact digitChar_isDigit n h10
    · rw [if_neg h10] at hc
      simp only [List.mem_cons] at hc
      rcases hc with hc | hc
      · subst hc
        exact digitChar_isDigit _ (Nat.mod_lt _ (by omega))
      · exact ih (n / 10) (by omega) c hc

/-- `digitsVal` of a list with one extra digit at the end. -/
theorem digitsVal_append (l : List Char) (c : Char) :
    digitsVal (l ++ [c]) = digitsVal l * 10 + (c.toNat - 48) := by
  simp [digitsVal, List.foldl_append]

/-- The decimal rendering round-trips through `digitsVal`. -/
theorem digitsVal_natDigitsRevFuel (fuel : Nat) : ∀ (n : Nat), n < fuel →
    digitsVal (natDigitsRevFuel fuel n).reverse = n := by
  induction fuel with
  | zero => omega
  | succ f ih =>
    intro n hn
    rw [natDigitsRevFuel]
    by_cases h10 : n < 10
    · rw [if_pos h10]
      simp only [List.reverse_singleton]
      have : digitsVal [Nat.digitChar n] = (Nat.digitChar n).toNat - 48 := by
        simp [digitsVal]
      rw [this, digitChar_toNat n h10]
    · rw [if_neg h10]
      rw [List.reverse_cons, digitsVal_append, ih (n / 10) (by omega),
        digitChar_toNat _ (Nat.mod_lt _ (by omega))]
      omega

/-- The decimal rendering is never empty. -/
theorem natDigitsRev_ne_nil (n : Nat) : ¬ natDigitsRev n = [] := by
  unfold natDigitsRev natDigitsRevFuel
  by_cases h : n < 10 <;> simp [h]

/-- `split(".")` of a dot-free string is a single chunk. -/
theorem splitOnDotData_no_dot (l : List Char) (h : '.' ∉ l) :
    splitOnDotData l = [l] := by
  induction l with
  | nil => rfl
  | cons c t ih =>
    simp only [List.mem_cons, not_or] at h
    simp [splitOnDotData, ih h.2, Ne.symm h.1]

/-- `split(".")` around the first dot. -/
theorem splitOnDotData_append (a b : List Char) (ha : '.' ∉ a) :
    splitOnDotData (a ++ '.' :: b) = a :: splitOnDotData b := by
  induction a with
  | nil => simp [splitOnDotData]
  | cons c t ih =>
    simp only [List.mem_cons, not_or] at ha
    simp [splitOnDotData, ih ha.2, Ne.symm ha.1]

/-- Splitting a two-part token on the dot. -/
theorem splitOnDot_token (a b : String) (ha : '.' ∉ a.data)
    (hb : '.' ∉ b.data) : splitOnDot (a ++ "." ++ b) = [a, b] := by
  unfold splitOnDot
  rw [string_data_append, string_data_append]
  rw [show (a.data ++ ".".data) ++ b.data = a.data ++ '.' :: b.data from by
    simp]
  rw [splitOnDotData_append _ _ ha, splitOnDotData_no_dot _ hb]
  simp [string_mk_data]

/-- The head of `"null"` plus anything is `'n'`. -/
theorem head?_null (l : List Char) : ("null".data ++ l).head? = some 'n' :=
  rfl

/-- `JSON.parse` inverts `stringifyPayload` on quote-free field values. -/
theorem parsePayload_stringify (E : String) (R : Option String) (T : String)
    (n : Nat) (he : '"' ∉ E.data) (hr : ∀ r, R = some r → '"' ∉ r.data)
    (ht : '"' ∉ T.data) :
    parsePayload (stringifyPayload ⟨E, R, T, n⟩) = some ⟨E, R, T, n⟩ := by
  have hdigits : ∀ c ∈ (natStr n).data, c.isDigit = true := by
    intro c hc
    rw [show (natStr n).data = (natDigitsRevFuel (n + 1) n).reverse from rfl,
      List.mem_reverse] at hc
    exact natDigitsRevFuel_digits (n + 1) n (by omega) c hc
  have hbrace : ∀ (c : Char) (t : List Char),
      (['\x7d'] : List Char) = c :: t → c.isDigit = false := by
    intro c t h
    injection h with h1 _
    subst h1
    decide
  have hne : ((natStr n).data).isEmpty = false := by
    rw [show (natStr n).data = (natDigitsRev n).reverse from rfl]
    simp [natDigitsRev_ne_nil n]
  have hval : digitsVal (natStr n).data = n := by
    rw [show (natStr n).data = (natDigitsRevFuel (n + 1) n).reverse from rfl]
    exact digitsVal_natDigitsRevFuel (n + 1) n (by omega)
  cases R with
  | none =>
    have hshape : (stringifyPayload ⟨E, none, T, n⟩).data =
        "\x7b\"email\":\"".data ++ (E.data ++ ('"' ::
          (",\"requestId\":".data ++ ("null".data ++ (",\"type\":\"".data ++
          (T.data ++ ('"' :: (",\"timestamp\":".data ++
          ((natStr n).data ++ ['\x7d'])))))))) ) := by
      simp only [stringifyPayload, string_data_append, List.append_assoc]
      rfl
    unfold parsePayload
    rw [hshape, stripLit_self, option_some_bind,
      takeUntilQuote_eq _ _ he, option_some_bind]
    dsimp only
    rw [stripLit_self, option_some_bind, head?_null, if_neg (by decide),
      stripLit_self, option_some_bind]
    unfold parsePayloadTail
    rw [stripLit_self, option_some_bind, takeUntilQuote_eq _ _ ht,
      option_some_bind]
    dsimp only
    rw [stripLit_self, option_some_bind,
      takeDigits_digits _ _ hdigits hbrace]
    dsimp only
    rw [if_neg (by simp [hne]), if_pos rfl, hval]
    simp [string_mk_data]
  | some r =>
    have hrq : '"' ∉ r.data := hr r rfl
    have hshape : (stringifyPayload ⟨E, some r, T, n⟩).data =
        "\x7b\"email\":\"".data ++ (E.data ++ ('"' ::
          (",\"requestId\":".data ++ ('"' :: (r.data ++ ('"' ::
          (",\"type\":\"".data ++ (T.data ++ ('"' ::
          (",\"timestamp\":".data ++
          ((natStr n).data ++ ['\x7d'])))))))))) ) := by
      simp only [stringifyPayload, string_data_append, List.append_assoc]
      rfl
    unfold parsePayload
    rw [hshape, stripLit_self, option_some_bind,
      takeUntilQuote_eq _ _ he, option_some_bind]
    dsimp only
    rw [stripLit_self, option_some_bind]
    rw [List.head?_cons, if_pos rfl, List.tail_cons,
      takeUntilQuote_eq _ _ hrq, option_some_bind]
    dsimp only
    unfold parsePayloadTail
    rw [stripLit_self, option_some_bind, takeUntilQuote_eq _ _ ht,
      option_some_bind]
    dsimp only
    rw [stripLit_self, option_some_bind,
      takeDigits_digits _ _ hdigits hbrace]
    dsimp only
    rw [if_neg (by simp [hne]), if_pos rfl, hval]
    simp [string_mk_data]

/-- `Char.ofNat` of a valid scalar value keeps the numeric value. -/
theorem char_toNat_ofNat (n : Nat) (h : n.isValidChar) :
    (Char.ofNat n).toNat = n := by
  rw [Char.ofNat, dif_pos h]
  simp [Char.ofNatAux, Char.toNat, UInt32.toNat]

/-- The branch form of `Char.toLower`. -/
theorem toLower_eq (c : Char) :
    c.toLower = if c.toNat ≥ 65 ∧ c.toNat ≤ 90
      then Char.ofNat (c.toNat + 32) else c := rfl

/-- Lowercasing is idempotent per character. -/
theorem toLower_idem (c : Char) : c.toLower.toLower = c.toLower := by
  by_cases h : c.toNat ≥ 65 ∧ c.toNat ≤ 90
  · have hv : Nat.isValidChar (c.toNat + 32) := Or.inl (by omega)
    rw [toLower_eq c, if_pos h, toLower_eq, char_toNat_ofNat _ hv,
      if_neg (by omega)]
  · rw [toLower_eq c, if_neg h, toLower_eq c, if_neg h]

/-- The head of a `dropWhile` result fails the predicate. -/
theorem dropWhile_head_false (p : Char → Bool) (l : List Char) (c : Char)
    (t : List Char) (h : l.dropWhile p = c :: t) : p c = false := by
  induction l with
  | nil => simp at h
  | cons a l ih =>
    rw [List.dropWhile_cons] at h
    by_cases ha : p a = true
    · rw [if_pos ha] at h
      exact ih h
    · rw [if_neg ha] at h
      injection h with h1 _
      subst h1
      simpa using ha

/-- `dropWhile` is idempotent. -/
theorem dropWhile_idem (p : Char → Bool) (l : List Char) :
    (l.dropWhile p).dropWhile p = l.dropWhile p := by
  cases h : l.dropWhile p with
  | nil => rfl
  | cons c t =>
    rw [List.dropWhile_cons, if_neg (by simp [dropWhile_head_false p l c t h])]

/-- `dropWhile` ignores a non-matching last element. -/
theorem dropWhile_append_singleton (p : Char → Bool) (l : List Char)
    (c : Char) (hc : p c = false) :
    (l ++ [c]).dropWhile p = l.dropWhile p ++ [c] := by
  induction l with
  | nil => simp [List.dropWhile_cons, hc]
  | cons a t ih =>
    rw [List.cons_append, List.dropWhile_cons, List.dropWhile_cons]
    by_cases ha : p a = true
    · rw [if_pos ha, if_pos ha, ih]
    · rw [if_neg ha, if_neg ha, List.cons_append]

/-- `trim()` is idempotent. -/
theorem jsTrim_idem (s : String) : jsTrim (jsTrim s) = jsTrim s := by
  unfold jsTrim
  rw [show (String.mk ((((s.data.dropWhile Char.isWhitespace).reverse
      ).dropWhile Char.isWhitespace).reverse)).data =
    (((s.data.dropWhile Char.isWhitespace).reverse
      ).dropWhile Char.isWhitespace).reverse from rfl]
  congr 1
  cases hY : s.data.dropWhile Char.isWhitespace with
  | nil => rfl
  | cons c t =>
    have hc : Char.isWhitespace c = false :=
      dropWhile_head_false _ _ _ _ hY
    rw [show (c :: t).reverse = t.reverse ++ [c] from by simp]
    rw [dropWhile_append_singleton _ _ _ hc]
    rw [show ((t.reverse.dropWhile Char.isWhitespace) ++ [c]).reverse =
      c :: (t.reverse.dropWhile Char.isWhitespace).reverse from by simp]
    rw [List.dropWhile_cons, if_neg (by simp [hc])]
    rw [show (c :: (t.reverse.dropWhile Char.isWhitespace).reverse).reverse =
      t.reverse.dropWhile Char.isWhitespace ++ [c] from by simp]
    rw [dropWhile_append_singleton _ _ _ hc, dropWhile_idem]
    simp

/-- Every character the trim keeps comes from the original string. -/
theorem jsTrim_mem (s : String) : ∀ c ∈ (jsTrim s).data, c ∈ s.data := by
  intro c hc
  unfold jsTrim at hc
  rw [show (String.mk ((((s.data.dropWhile Char.isWhitespace).reverse
      ).dropWhile Char.isWhitespace).reverse)).data =
    (((s.data.dropWhile Char.isWhitespace).reverse
      ).dropWhile Char.isWhitespace).reverse from rfl,
    List.mem_reverse] at hc
  have h1 := (List.dropWhile_sublist _).subset hc
  rw [List.mem_reverse] at h1
  exact (List.dropWhile_sublist _).subset h1

/-- Lowercasing a string whose characters are already fixed points is the
identity. -/
theorem jsToLower_mem_fixed (s : String)
    (h : ∀ c ∈ s.data, c.toLower = c) : jsToLower s = s := by
  unfold jsToLower
  rw [List.map_congr_left h, List.map_id', string_mk_data]

/-- Email normalization is idempotent. -/
theorem normEmail_idem (e : String) :
    normEmail (normEmail e) = normEmail e := by
  unfold normEmail
  rw [jsToLower_mem_fixed (jsTrim (jsToLower e)) ?hfix]
  · exact jsTrim_idem (jsToLower e)
  case hfix =>
    intro c hc
    have h1 := jsTrim_mem (jsToLower e) c hc
    rw [show (jsToLower e).data = e.data.map Char.toLower from rfl] at h1
    obtain ⟨c0, _, hc0⟩ := List.mem_map.mp h1
    rw [← hc0]
    exact toLower_idem c0

/-- **C7**: for every email, requestId, and issue time, a `payment` token
verifies against the same (email, requestId, type) triple within 30 days of
issuance; verification fails after the 30-day expiry and on an email
mismatch; and a token whose payload part was altered is accepted only if the
recomputed HMAC of the decoded payload collides with the original signature
— otherwise the signature check fails.  (The base64url codec and
HMAC-SHA256 are the `crypto` library collaborators `enc`/`dec`/`hmac`,
assumed only to round-trip the payload and to emit dot-free nonempty
strings, as base64url and hex digests are.) -/
theorem C7_token_roundtrip (enc hmac : String → String)
    (dec : String → Option String) (email : String) (rid : Option String)
    (t0 t1 : Nat)
    (hdec : dec (enc (tokenPayloadString email rid "payment" t0)) =
      some (tokenPayloadString email rid "payment" t0))
    (hence : ¬ enc (tokenPayloadString email rid "payment" t0) = "")
    (hencd : '.' ∉ (enc (tokenPayloadString email rid "payment" t0)).data)
    (hhme : ¬ hmac (tokenPayloadString email rid "payment" t0) = "")
    (hhmd : '.' ∉ (hmac (tokenPayloadString email rid "payment" t0)).data)
    (hq : '"' ∉ (normEmail email).data)
    (hqr : ∀ r, optTruthy rid = some r → '"' ∉ r.data) :
    ((t1 : Int) - (t0 : Int) ≤ 30 * 24 * 60 * 60 * 1000 →
      verifyToken dec hmac (generateToken enc hmac email rid "payment" t0)
        email rid "payment" t1 = ⟨true, ""⟩) ∧
    ((30 * 24 * 60 * 60 * 1000 : Int) < (t1 : Int) - (t0 : Int) →
      verifyToken dec hmac (generateToken enc hmac email rid "payment" t0)
        email rid "payment" t1 = ⟨false, "Token expired"⟩) ∧
    (∀ email2, ¬ normEmail email2 = normEmail email →
      verifyToken dec hmac (generateToken enc hmac email rid "payment" t0)
        email2 rid "payment" t1 = ⟨false, "Email mismatch"⟩) ∧
    (∀ a P1, ¬ a = "" → '.' ∉ a.data → dec a = some P1 →
      (verifyToken dec hmac
          (a ++ "." ++ hmac (tokenPayloadString email rid "payment" t0))
          email rid "payment" t1).valid = true →
      hmac P1 = hmac (tokenPayloadString email rid "payment" t0)) := by
  have hparse : parsePayload (tokenPayloadString email rid "payment" t0) =
      some ⟨normEmail email, optTruthy rid, "payment", t0⟩ :=
    parsePayload_stringify (normEmail email) (optTruthy rid) "payment" t0
      hq hqr (by decide)
  have hsplit : splitOnDot (generateToken enc hmac email rid "payment" t0) =
      [enc (tokenPayloadString email rid "payment" t0),
       hmac (tokenPayloadString email rid "payment" t0)] := by
    rw [show generateToken enc hmac email rid "payment" t0 =
      enc (tokenPayloadString email rid "payment" t0) ++ "." ++
        hmac (tokenPayloadString email rid "payment" t0) from rfl]
    exact splitOnDot_token _ _ hencd hhmd
  have hrun : verifyToken dec hmac
      (generateToken enc hmac email rid "payment" t0)
      email rid "payment" t1 =
      if tokenExpiry "payment" < (t1 : Int) - (t0 : Int)
      then ⟨false, "Token expired"⟩ else ⟨true, ""⟩ := by
    unfold verifyToken
    rw [hsplit]
    simp only [List.headD_cons, List.drop_succ_cons, List.drop_zero,
      List.head?_cons, Option.getD_some]
    rw [if_neg (by simp [hence, hhme]), hdec]
    dsimp only
    rw [hparse]
    dsimp only
    rw [if_neg (by simp), if_neg (by simp [normEmail_idem])]
    cases hrt : optTruthy rid with
    | none =>
      rw [if_neg (by simp [hrt]), if_neg (by simp)]
    | some er =>
      rw [if_neg (by simp [hrt]), if_neg (by simp)]
  refine ⟨?_, ?_, ?_, ?_⟩
  · intro h
    rw [hrun, if_neg (by
      rw [show tokenExpiry "payment" = (30 * 24 * 60 * 60 * 1000 : Int)
        from rfl]
      omega)]
  · intro h
    rw [hrun, if_pos (by
      rw [show tokenExpiry "payment" = (30 * 24 * 60 * 60 * 1000 : Int)
        from rfl]
      omega)]
  · intro email2 hne
    unfold verifyToken
    rw [hsplit]
    simp only [List.headD_cons, List.drop_succ_cons, List.drop_zero,
      List.head?_cons, Option.getD_some]
    rw [if_neg (by simp [hence, hhme]), hdec]
    dsimp only
    rw [hparse]
    dsimp only
    rw [if_neg (by simp),
      if_pos (by
        rw [show normEmail
            (Payload.email ⟨normEmail email, optTruthy rid, "payment", t0⟩) =
          normEmail (normEmail email) from rfl, normEmail_idem]
        intro hcon
        exact hne hcon.symm)]
  · intro a P1 hane hadot hdeca hvalid
    unfold verifyToken at hvalid
    rw [splitOnDot_token a _ hadot hhmd] at hvalid
    simp only [List.headD_cons, List.drop_succ_cons, List.drop_zero,
      List.head?_cons, Option.getD_some] at hvalid
    rw [if_neg (by simp [hane, hhme]), hdeca] at hvalid
    dsimp only at hvalid
    cases hpp : parsePayload P1 with
    | none =>
      rw [hpp] at hvalid
      simp at hvalid
    | some pl =>
      rw [hpp] at hvalid
      dsimp only at hvalid
      by_cases hsig : hmac P1 =
          hmac (tokenPayloadString email rid "payment" t0)
      · exact hsig
      · rw [if_pos hsig] at hvalid
        simp at hvalid

/-- Witness for C7 at a concrete identity codec and a length-digest HMAC:
the round-trip token verifies five milliseconds after issuance. -/
theorem C7_token_roundtrip_witness :
    verifyToken (fun s => some s) (fun s => natStr s.data.length)
      (generateToken (fun s => s) (fun s => natStr s.data.length)
        "w@xcom" (some "R1") "payment" 0)
      "w@xcom" (some "R1") "payment" 5 = ⟨true, ""⟩ :=
  (C7_token_roundtrip (fun s => s) (fun s => natStr s.data.length)
    (fun s => some s) "w@xcom" (some "R1") 0 5
    (by decide) (by decide) (by decide) (by decide) (by decide) (by decide)
    (fun r hr => by
      rw [show optTruthy (some "R1") = some "R1" from rfl] at hr
      injection hr with h
      rw [← h]
      decide)).1 (by decide)

end Optiverify
